import Mathlib

/-!
Verification development for the YamiDashTestBolt customer-service chatbot
backend (Google Apps Script sources: main.gs, menuService.gs, loggingService.gs,
aiService.gs, configService.gs, plus the ChatService and MercadoLibreService
modules).  The JavaScript sources are shallowly embedded: sheet cells and
duck-typed fields become the `JVal` universe, thrown exceptions become
`Except String`, the external boundaries (spreadsheet reads, the clock,
PropertiesService, HTTP fetches) become oracle fields of environment
structures, and every service function is translated branch by branch.
-/

namespace YamiDash

/-- JS dynamic value, covering the value shapes the embedded code manipulates
(sheet cells, response fields).  `onull` stands for both `null` and
`undefined` (the embedded code never distinguishes them). -/
inductive JVal where
  | str (s : String)
  | num (n : Int)
  | bool (b : Bool)
  | onull
deriving DecidableEq, Repr

/-- JS truthiness of a `JVal`. -/
def jvalTruthy : JVal → Bool
  | .str s => s ≠ ""
  | .num n => n ≠ 0
  | .bool b => b
  | .onull => false

/-- JS `a || b`. -/
def jsOr (a b : JVal) : JVal := if jvalTruthy a then a else b

/-- JS `String(v)` / template-literal interpolation of a value. -/
def jvalString : JVal → String
  | .str s => s
  | .num n => toString n
  | .bool b => if b then "true" else "false"
  | .onull => "null"

/-- ASCII decimal digit test (JS regex `\d`). -/
def isDigitCh (c : Char) : Bool := decide ('0' ≤ c) && decide (c ≤ '9')

/-- ASCII letter test. -/
def isAsciiLetter (c : Char) : Bool :=
  (decide ('a' ≤ c) && decide (c ≤ 'z')) || (decide ('A' ≤ c) && decide (c ≤ 'Z'))

/-- JS regex word character (`\w`): ASCII letter, digit or underscore. -/
def isWordCh (c : Char) : Bool := isAsciiLetter c || isDigitCh c || decide (c = '_')

/-- JS regex whitespace (`\s`), restricted to the ASCII whitespace characters
(the embedded strings contain no exotic Unicode spaces). -/
def isSpaceCh (c : Char) : Bool :=
  decide (c = ' ') || decide (c = '\t') || decide (c = '\n') || decide (c = '\r')

/-- Separator class `[\s-]` of the credit-card regex in `sanitizeMessage`. -/
def isCardSep (c : Char) : Bool := isSpaceCh c || decide (c = '-')

/-- Separator class `[-.]` of the phone regex in `sanitizeMessage`. -/
def isPhoneSep (c : Char) : Bool := decide (c = '-') || decide (c = '.')

/-- Local-part class `[A-Za-z0-9._%+-]` of the email regex. -/
def isLocalCh (c : Char) : Bool :=
  isAsciiLetter c || isDigitCh c || decide (c = '.') || decide (c = '_') ||
    decide (c = '%') || decide (c = '+') || decide (c = '-')

/-- Domain class `[A-Za-z0-9.-]` of the email regex. -/
def isDomainCh (c : Char) : Bool :=
  isAsciiLetter c || isDigitCh c || decide (c = '.') || decide (c = '-')

/-- Top-level-domain class `[A-Z|a-z]` of the email regex (the literal `|`
inside the character class is part of the source regex). -/
def isTldCh (c : Char) : Bool := isAsciiLetter c || decide (c = '|')

/-- JS `\b` word-boundary test at a position: `leftW` is the word-ness of the
character before the position (`false` at the start of the string), and the
list is the rest of the string from the position on (its head supplies the
right side; end of string counts as a non-word side). -/
def bAt (leftW : Bool) (l : List Char) : Bool :=
  leftW != (match l with | [] => false | c :: _ => isWordCh c)

/-- Consume exactly `n` leading digits, returning the rest of the string. -/
def chompDigits : Nat → List Char → Option (List Char)
  | 0, l => some l
  | _ + 1, [] => none
  | n + 1, c :: l => if isDigitCh c then chompDigits n l else none

/-- Consume one leading character of class `p` when `present` is true (the
regex engine trying the `?`-quantified separator as present), or nothing when
`present` is false. -/
def chompSep (p : Char → Bool) (present : Bool) (l : List Char) : Option (List Char) :=
  if present then
    match l with
    | [] => none
    | c :: rest => if p c then some rest else none
  else some l

/-- One backtracking alternative of the phone regex
`\b\d{3}[-.]?\d{3}[-.]?\d{4}\b`: the two booleans choose whether each
optional separator is taken.  Returns the length of the match. -/
def phoneCombo (s1 s2 : Bool) (l : List Char) : Option Nat := do
  let r1 ← chompDigits 3 l
  let r2 ← chompSep isPhoneSep s1 r1
  let r3 ← chompDigits 3 r2
  let r4 ← chompSep isPhoneSep s2 r3
  let r5 ← chompDigits 4 r4
  if bAt true r5 then pure (l.length - r5.length) else none

/-- Match attempt of the phone regex at the current position, given the
word-ness of the previous character.  The alternatives are tried in the
backtracking order of the regex engine (each greedy `?` prefers the separator
present). -/
def phoneMatchAt (prevW : Bool) (l : List Char) : Option Nat :=
  if bAt prevW l then
    (phoneCombo true true l) <|> (phoneCombo true false l) <|>
      (phoneCombo false true l) <|> (phoneCombo false false l)
  else none

/-- One backtracking alternative of the card regex
`\b\d{4}[\s-]?\d{4}[\s-]?\d{4}[\s-]?\d{4}\b`. -/
def cardCombo (s1 s2 s3 : Bool) (l : List Char) : Option Nat := do
  let r1 ← chompDigits 4 l
  let r2 ← chompSep isCardSep s1 r1
  let r3 ← chompDigits 4 r2
  let r4 ← chompSep isCardSep s2 r3
  let r5 ← chompDigits 4 r4
  let r6 ← chompSep isCardSep s3 r5
  let r7 ← chompDigits 4 r6
  if bAt true r7 then pure (l.length - r7.length) else none

/-- Match attempt of the credit-card regex at the current position, in the
engine's backtracking order over the three optional separators. -/
def cardMatchAt (prevW : Bool) (l : List Char) : Option Nat :=
  if bAt prevW l then
    (cardCombo true true true l) <|> (cardCombo true true false l) <|>
      (cardCombo true false true l) <|> (cardCombo true false false l) <|>
      (cardCombo false true true l) <|> (cardCombo false true false l) <|>
      (cardCombo false false true l) <|> (cardCombo false false false l)
  else none

/-- Length of the longest prefix of `l` inside class `p` (a greedy `+`/`*`
run of the regex engine). -/
def runLen (p : Char → Bool) : List Char → Nat
  | [] => 0
  | c :: rest => if p c then runLen p rest + 1 else 0

/-- Backtracking search for the TLD part `[A-Z|a-z]{2,}\b` of the email
regex: `tl` is the string after the dot, `m` the candidate length (tried from
the longest run downwards, matching the greedy engine). -/
def emailTld (tl : List Char) : Nat → Option Nat
  | 0 => none
  | 1 => none
  | m + 2 =>
    match (tl.take (m + 2)).getLast? with
    | none => none
    | some lastC =>
      if bAt (isWordCh lastC) (tl.drop (m + 2)) then some (m + 2)
      else emailTld tl (m + 1)

/-- Backtracking search for the domain part `[A-Za-z0-9.-]+\.` +TLD of the
email regex: `rest` is the string after the `@`, `j` the candidate domain
length (tried from the longest run downwards). -/
def emailDomain (rest : List Char) : Nat → Option Nat
  | 0 => none
  | j + 1 =>
    match rest.drop (j + 1) with
    | '.' :: tl =>
      match emailTld tl (runLen isTldCh tl) with
      | some m => some (j + 1 + 1 + m)
      | none => emailDomain rest j
    | _ => emailDomain rest j

/-- Match attempt of the email regex
`\b[A-Za-z0-9._%+-]+@[A-Za-z0-9.-]+\.[A-Z|a-z]{2,}\b` at the current
position.  The local part is the maximal run of local characters (no shorter
run can be followed by `@`, since `@` is outside the class, so the engine's
backtracking never helps there). -/
def emailMatchAt (prevW : Bool) (l : List Char) : Option Nat :=
  let k := runLen isLocalCh l
  if k = 0 then none
  else if bAt prevW l then
    match l.drop k with
    | '@' :: rest =>
      match emailDomain rest (runLen isDomainCh rest) with
      | some dm => some (k + 1 + dm)
      | none => none
    | _ => none
  else none

/-- Fuel-indexed core of the global regex replacement scan; the fuel, at
least the list length at every call, makes the recursion structural (each
step consumes at least one character and one unit of fuel). -/
def replaceScanGo (m : Bool → List Char → Option Nat) (repl : List Char) :
    Nat → Bool → List Char → List Char
  | 0, _, l => l
  | _ + 1, _, [] => []
  | fuel + 1, prevW, c :: rest =>
    match m prevW (c :: rest) with
    | some (n + 1) =>
      repl ++ replaceScanGo m repl fuel (isWordCh ((c :: rest).getD n c)) (rest.drop n)
    | _ => c :: replaceScanGo m repl fuel (isWordCh c) rest

/-- Global regex replacement (JS `String.replace` with the `g` flag): scan
left to right, at each position try the matcher; on a match emit the
replacement and resume after the matched characters (the word-boundary state
continues from the last matched character of the original string, since JS
locates all matches on the input string). -/
def replaceScan (m : Bool → List Char → Option Nat) (repl : List Char)
    (prevW : Bool) (l : List Char) : List Char :=
  replaceScanGo m repl l.length prevW l

/-- Character-list core of `LoggingService.sanitizeMessage`: the three global
replacements (card, then email, then phone) followed by `substring(0, 500)`. -/
def sanitizeChars (s : List Char) : List Char :=
  let a := replaceScan cardMatchAt ("[CARD_NUMBER]".toList) false s
  let b := replaceScan emailMatchAt ("[EMAIL]".toList) false a
  let c := replaceScan phoneMatchAt ("[PHONE]".toList) false b
  c.take 500

/-- LoggingService.sanitizeMessage.  A non-string argument is returned as
`String(message || '')` without masking, exactly as in the source. -/
def sanitizeMessage : JVal → String
  | .str s => String.mk (sanitizeChars s.toList)
  | v => jvalString (jsOr v (.str ""))

/-- Contiguous-sublist test on character lists (JS `String.includes`, which
is case-sensitive). -/
def containsSeq (pat : List Char) : List Char → Bool
  | [] => decide (pat = [])
  | c :: rest => pat.isPrefixOf (c :: rest) || containsSeq pat rest

/-- JS `hay.includes(needle)`. -/
def containsSub (hay needle : String) : Bool := containsSeq needle.toList hay.toList

/-- JS `toLowerCase` on one character, covering ASCII plus the accented
uppercase letters that can occur in the Spanish keyword matching (the full
Unicode case table is not needed by the embedded code). -/
def charLower (c : Char) : Char :=
  if decide ('A' ≤ c) && decide (c ≤ 'Z') then Char.ofNat (c.toNat + 32)
  else if c = 'Á' then 'á' else if c = 'É' then 'é' else if c = 'Í' then 'í'
  else if c = 'Ó' then 'ó' else if c = 'Ú' then 'ú' else if c = 'Ñ' then 'ñ'
  else if c = 'Ü' then 'ü' else c

/-- JS `String.toLowerCase`. -/
def jsToLower (s : String) : String := String.mk (s.toList.map charLower)

/-- JS `x || dflt` for an optional string (absent and empty both fall back). -/
def strOr (a : Option String) (dflt : String) : String :=
  match a with
  | some s => if s ≠ "" then s else dflt
  | none => dflt

/-- Truthiness of an optional string property (absent or empty is falsy). -/
def optTruthy : Option String → Bool
  | some s => s ≠ ""
  | none => false

/-- Coerce an optional JS field to a value (`undefined` when absent). -/
def optJ : Option JVal → JVal
  | some v => v
  | none => .onull

/-- Wrap an optional string field as a JS value. -/
def optStr : Option String → JVal
  | some s => .str s
  | none => .onull

/-- The `sensitiveFields` list of `LoggingService.sanitizeMetadata`, verbatim
from the source (note the mixed-case `apiKey` entry). -/
def sensitiveFields : List String := ["password", "token", "apiKey", "secret", "credential"]

/-- LoggingService.sanitizeMetadata: each key whose lowercased form contains
one of the `sensitiveFields` entries (per JS case-sensitive `includes`) has
its value replaced by the redaction marker. -/
def sanitizeMetadata (metadata : List (String × JVal)) : List (String × JVal) :=
  metadata.map (fun kv =>
    if sensitiveFields.any (fun field => containsSub (jsToLower kv.1) field) then
      (kv.1, JVal.str "[REDACTED]")
    else kv)

/-- Nonnegative-integer value of a digit string. -/
def digitsVal (l : List Char) : Int :=
  l.foldl (fun a c => a * 10 + ((c.toNat : Int) - 48)) 0

/-- JS `Number(s)` restricted to the shapes the embedded code feeds it
(digit strings such as hour and minute fields); `none` models `NaN`, and the
empty string coerces to `0` as in JS. -/
def jsNumberOfString (s : String) : Option Int :=
  if s = "" then some 0
  else if s.toList.all isDigitCh then some (digitsVal s.toList)
  else none

/-- Time of the request, modelling the `Date` parts the code reads:
`getDay()` (0 = Sunday), `getHours()`, `getMinutes()`. -/
structure ClockTime where
  day : Fin 7
  hour : Nat
  minute : Nat
deriving DecidableEq, Repr

/-- One weekday entry of the business-hours schedule; `isOpen` models the
`open` field, `endT` the `end` field (both JS names are Lean keywords).
The time strings are optional because the hard-coded default schedule omits
them on closed days. -/
structure DaySched where
  isOpen : Bool
  start : Option String := none
  endT : Option String := none
deriving DecidableEq, Repr

/-- Result shape of `ConfigService.getBusinessHours`. -/
structure BusinessHours where
  schedule : Fin 7 → DaySched
  display : String
  timezone : String

/-- Parsed-JSON fields of a MercadoLibre order/product body that the embedded
code reads (`id`, `status`, `total_amount`, `date_created` for orders;
`title`, `price`, `available_quantity`, `condition` for products;
`message` for upstream error bodies). -/
structure MLData where
  id : JVal := .onull
  status : JVal := .onull
  totalAmount : JVal := .onull
  dateCreated : JVal := .onull
  title : JVal := .onull
  price : JVal := .onull
  availableQuantity : JVal := .onull
  condition : JVal := .onull
deriving DecidableEq, Repr

/-- HTTP outcome of one MercadoLibre API fetch: status code, the `message`
field of the parsed body, and the body itself (returned as `data`). -/
structure MLBody where
  code : Int
  message : JVal := .onull
  data : MLData := {}
deriving DecidableEq, Repr

/-- HTTP outcome of the OAuth refresh fetch: status code and the body fields
the code reads. -/
structure RefreshBody where
  code : Int
  accessToken : Option String := none
  refreshToken : Option String := none
  expiresIn : Int := 0
  errorDescription : Option String := none
deriving DecidableEq, Repr

/-- HTTP outcome of one AI-provider fetch: status code, whether the
payload envelope is present (`responseData.candidates` for Gemini,
`responseData.content` for Claude), and the optionally-chained text field. -/
structure AIProviderBody where
  code : Int
  present : Bool
  text : Option String := none
deriving DecidableEq, Repr

/-- Query context handed to `AIService.generateResponse`. -/
structure AICtx where
  userQuery : JVal
  context : JVal
  maxTokens : JVal
deriving DecidableEq, Repr

/-- One row of `MenuService.getMenuConfig`'s mapping of a `Menu_Config`
sheet row; raw cell values stay `JVal`, while `returnToMenu`/`active`
hold the results of the `!== false` comparisons and `maxTokens` the
`row[11] || 500` default, exactly as built in the source. -/
structure MenuOption where
  number : JVal
  title : JVal
  responseType : JVal
  response : JVal
  aiProvider : JVal
  aiContext : JVal
  escalationMessage : JVal
  afterHoursMessage : JVal
  fallbackResponse : JVal
  returnToMenu : Bool
  active : Bool
  maxTokens : JVal
deriving DecidableEq, Repr

/-- Response envelope: one field per key that any response literal of the
embedded code constructs; a `none` field models an absent key.  `rtype`
models the `type` key and `dataML` the `data` key. -/
structure Resp where
  success : Option Bool := none
  timestamp : Option String := none
  error : Option String := none
  message : Option JVal := none
  showMenu : Option Bool := none
  rtype : Option String := none
  title : Option JVal := none
  provider : Option JVal := none
  content : Option String := none
  businessHours : Option Bool := none
  greeting : Option String := none
  options : Option (List MenuOption) := none
  footer : Option String := none
  dataML : Option MLData := none
deriving DecidableEq, Repr

/-- External environment of one request: the clock, the configuration
oracles (ConfigService getters, which read the Settings sheet through a
cache), the Menu_Config sheet contents, Script properties, and the HTTP
fetch outcomes of each external API.  `Except.error` on an oracle models a
thrown exception at that boundary. -/
structure Env where
  initResult : Except String Unit
  nowISO : String
  nowMs : Int
  nowTime : ClockTime
  businessHours : BusinessHours
  greetingBusinessHours : String
  greetingAfterHours : String
  footerMessage : String
  menuData : Except String (List (List JVal))
  parseDateMs : String → Option Int
  localeDate : String → String
  mlAccessToken : Option String
  mlAccessTokenExpira : Option String
  mlClientId : Option String
  mlClientSecret : Option String
  mlRefreshToken : Option String
  mlUserId : Option String
  geminiApiKey : Option String
  claudeApiKey : Option String
  geminiHttp : String → JVal → Except String AIProviderBody
  claudeHttp : String → JVal → Except String AIProviderBody
  refreshHttp : Except String RefreshBody
  ordersHttp : String → Except String MLBody
  orderHttp : String → Except String MLBody
  itemHttp : String → Except String MLBody

/-- Request parameter object of the dispatcher (`{action, userInput,
sessionId}`; absent fields destructure to `undefined`). -/
structure Params where
  action : Option String := none
  userInput : Option String := none
  sessionId : Option String := none
deriving DecidableEq, Repr

/-- One appended `Chat_Logs` row, named by column (the serialized-metadata
column, which holds `JSON.stringify(sanitizeMetadata(data))`, is covered by
the standalone `sanitizeMetadata` model and elided here). -/
structure LogEntry where
  ts : String
  sessionId : String
  itype : String
  userMsg : String
  botMsg : String
  provider : JVal
  responseTime : Int
  status : String
deriving DecidableEq, Repr

/-- Duck-typed `data` argument of `LoggingService.logInteraction`: the
fields the column builders read from whatever object a call site passes. -/
structure LogData where
  userMessage : Option String := none
  selection : Option String := none
  message : Option JVal := none
  botRespMessage : Option JVal := none
  provider : Option JVal := none
  aiProvider : Option JVal := none
  responseTime : Option Int := none
  success : Option Bool := none
deriving DecidableEq, Repr

/-- Projection of a response object to the `LogData` fields that
`logInteraction` reads when a call site passes the response itself
(`data.botResponse` and `data.aiProvider` are absent on responses). -/
def LogData.ofResp (r : Resp) : LogData :=
  { userMessage := none, selection := none, message := r.message,
    botRespMessage := none, provider := r.provider, aiProvider := none,
    responseTime := none, success := r.success }

namespace LoggingService

/-- LoggingService.logInteraction: builds the appended log row.  The
response-time column is `data.responseTime || (Date.now() - startTime)`,
where the elapsed time is 0 in this single-instant model. -/
def logInteraction (nowISO : String) (interactionType : String)
    (sessionId : Option String) (data : LogData) : LogEntry :=
  { ts := nowISO
    sessionId := strOr sessionId "anonymous"
    itype := interactionType
    userMsg := sanitizeMessage (jsOr (optStr data.userMessage) (jsOr (optStr data.selection) (.str "")))
    botMsg := sanitizeMessage (jsOr (optJ data.message) (jsOr (optJ data.botRespMessage) (.str "")))
    provider := jsOr (optJ data.provider) (jsOr (optJ data.aiProvider) (.str ""))
    responseTime := data.responseTime.getD 0
    status := if data.success = some false then "error" else "success" }

/-- LoggingService.logError: the error row (columns per the source;
`context.sessionId || 'system'`, message text unsanitized). -/
def logError (nowISO : String) (operation : String) (errMessage : String)
    (ctxSessionId : Option String) : LogEntry :=
  { ts := nowISO
    sessionId := strOr ctxSessionId "system"
    itype := "error"
    userMsg := operation
    botMsg := errMessage
    provider := .str ""
    responseTime := 0
    status := "error" }

/-- LoggingService.logEscalation: the escalation row (the session id is
written as given; an `undefined` id becomes a blank cell). -/
def logEscalation (nowISO : String) (sessionId : Option String) (reason : JVal)
    (status : String) : LogEntry :=
  { ts := nowISO
    sessionId := sessionId.getD ""
    itype := "escalation"
    userMsg := sanitizeMessage reason
    botMsg := "Escalation status: " ++ status
    provider := .str ""
    responseTime := 0
    status := status }

end LoggingService

/-- Character-level split (JS `String.split(sep)` for a one-character
separator). -/
def splitOnChar (sep : Char) (l : List Char) : List (List Char) :=
  l.foldr
    (fun c acc =>
      match acc with
      | cur :: done => if c = sep then [] :: cur :: done else (c :: cur) :: done
      | [] => [[c]])
    [[]]

namespace MenuService

/-- MenuService.parseTime: `split(':')` then `Number` on the first two
parts; `none` models the `NaN` that arises when a part is missing or
non-numeric. -/
def parseTime (timeString : String) : Option Int :=
  match (splitOnChar ':' timeString.toList).map String.mk with
  | h :: m :: _ =>
    match jsNumberOfString h, jsNumberOfString m with
    | some hv, some mv => some (hv * 60 + mv)
    | _, _ => none
  | _ => none

/-- MenuService.isWithinBusinessHours: closed (or missing) day gives
`false`; otherwise the current minutes-since-midnight must satisfy
`openTime <= t <= closeTime`.  A missing time string makes the source throw
inside its `try` (`undefined.split`), and a non-numeric one makes both
comparisons `NaN`-false, so both cases return `false`. -/
def isWithinBusinessHours (currentTime : ClockTime) (businessHours : BusinessHours) : Bool :=
  if !(businessHours.schedule currentTime.day).isOpen then false
  else
    match (businessHours.schedule currentTime.day).start,
        (businessHours.schedule currentTime.day).endT with
    | some st, some en =>
      match parseTime st, parseTime en with
      | some openTime, some closeTime =>
        decide ((currentTime.hour * 60 + currentTime.minute : Int) ≥ openTime) &&
          decide ((currentTime.hour * 60 + currentTime.minute : Int) ≤ closeTime)
      | _, _ => false
    | _, _ => false

/-- MenuService.getMenuConfig: skip the header row, map each row to a
`MenuOption`, and keep the rows whose `number` and `title` are truthy.
A sheet-read error is caught and yields the empty list. -/
def getMenuConfig (menuData : Except String (List (List JVal))) : List MenuOption :=
  match menuData with
  | .error _ => []
  | .ok data =>
    let menuItems := (data.drop 1).map (fun row =>
      ({ number := row.getD 0 .onull
         title := row.getD 1 .onull
         responseType := row.getD 2 .onull
         response := row.getD 3 .onull
         aiProvider := row.getD 4 .onull
         aiContext := row.getD 5 .onull
         escalationMessage := row.getD 6 .onull
         afterHoursMessage := row.getD 7 .onull
         fallbackResponse := row.getD 8 .onull
         returnToMenu := decide (row.getD 9 .onull ≠ JVal.bool false)
         active := decide (row.getD 10 .onull ≠ JVal.bool false)
         maxTokens := jsOr (row.getD 11 .onull) (.num 500) } : MenuOption))
    menuItems.filter (fun item => jvalTruthy item.number && jvalTruthy item.title)

end MenuService

namespace AIService

/-- AIService.buildPrompt. -/
def buildPrompt (context : AICtx) : String :=
  "Eres un asistente de atención al cliente para una tienda en línea. \n" ++
  "    Tu objetivo es proporcionar respuestas útiles, precisas y amigables.\n    \n" ++
  "    Contexto específico: " ++
  jvalString (jsOr context.context (.str "Consulta general de atención al cliente")) ++
  "\n    \n    Instrucciones:\n" ++
  "    - Mantén un tono profesional pero cercano\n" ++
  "    - Proporciona información específica y accionable\n" ++
  "    - Si no tienes información suficiente, sugiere contactar con un agente humano\n" ++
  "    - Mantén las respuestas concisas pero completas\n" ++
  "    - Incluye pasos específicos cuando sea apropiado\n    \n" ++
  "    Consulta del usuario: " ++ jvalString context.userQuery ++
  "\n    \n    Respuesta:"

/-- Failure envelope of `callGemini`'s catch block. -/
def geminiErr (msg : String) : Resp :=
  { success := some false, error := some ("Gemini API error: " ++ msg),
    provider := some (.str "gemini") }

/-- AIService.callGemini: missing key, a thrown fetch, a non-200 code, a
missing `candidates` envelope or an empty text all flow into the catch. -/
def callGemini (env : Env) (context : AICtx) : Resp :=
  if !optTruthy env.geminiApiKey then geminiErr "Gemini API key not configured"
  else
    match env.geminiHttp (buildPrompt context) (jsOr context.maxTokens (.num 500)) with
    | .error e => geminiErr e
    | .ok body =>
      if body.code = 200 && body.present then
        match body.text with
        | some content =>
          if content ≠ "" then
            { success := some true, content := some content.trim,
              provider := some (.str "gemini"), timestamp := some env.nowISO }
          else geminiErr "Invalid response from Gemini API"
        | none => geminiErr "Invalid response from Gemini API"
      else geminiErr "Invalid response from Gemini API"

/-- Failure envelope of `callClaude`'s catch block. -/
def claudeErr (msg : String) : Resp :=
  { success := some false, error := some ("Claude API error: " ++ msg),
    provider := some (.str "claude") }

/-- AIService.callClaude, structured like `callGemini` over the Claude body
shape (`responseData.content` envelope, `content[0]?.text` extraction). -/
def callClaude (env : Env) (context : AICtx) : Resp :=
  if !optTruthy env.claudeApiKey then claudeErr "Claude API key not configured"
  else
    match env.claudeHttp (buildPrompt context) (jsOr context.maxTokens (.num 500)) with
    | .error e => claudeErr e
    | .ok body =>
      if body.code = 200 && body.present then
        match body.text with
        | some content =>
          if content ≠ "" then
            { success := some true, content := some content.trim,
              provider := some (.str "claude"), timestamp := some env.nowISO }
          else claudeErr "Invalid response from Claude API"
        | none => claudeErr "Invalid response from Claude API"
      else claudeErr "Invalid response from Claude API"

/-- AIService.generateResponse: dispatch on the provider string; an
unsupported provider throws and the catch converts it to a failure envelope
carrying the provider value. -/
def generateResponse (env : Env) (provider : JVal) (context : AICtx) : Resp :=
  if provider = JVal.str "gemini" then callGemini env context
  else if provider = JVal.str "claude" then callClaude env context
  else
    { success := some false,
      error := some ("Unsupported AI provider: " ++ jvalString provider),
      provider := some provider }

end AIService

namespace MercadoLibreService

/-- Which external calls an operation performed, and with which bearer. -/
structure MLTrace where
  refreshCalled : Bool
  apiCalled : Bool
  bearer : Option String
deriving DecidableEq, Repr

/-- MercadoLibreService.refreshAccessToken: missing credentials throw, a
thrown fetch, a non-200 code or a missing `access_token` all end in the
catch, which returns `null`.  (The property writes persisting the rotated
token are a store side effect outside this model.) -/
def refreshAccessToken (env : Env) : Option String :=
  if !(optTruthy env.mlClientId && optTruthy env.mlClientSecret && optTruthy env.mlRefreshToken) then
    none
  else
    match env.refreshHttp with
    | .error _ => none
    | .ok b => if b.code = 200 && optTruthy b.accessToken then b.accessToken else none

/-- MercadoLibreService.getValidAccessToken: the stored token is returned
as-is only when it and its expiry are present and `now < expiry - 5min`
(an unparseable expiry makes the comparison `NaN`-false); every other case
falls through to `refreshAccessToken`.  The second component records
whether a refresh was attempted. -/
def getValidAccessToken (env : Env) : Option String × Bool :=
  if optTruthy env.mlAccessToken && optTruthy env.mlAccessTokenExpira then
    match env.parseDateMs (env.mlAccessTokenExpira.getD "") with
    | some expiryMs =>
      if env.nowMs < expiryMs - 300000 then (env.mlAccessToken, false)
      else (refreshAccessToken env, true)
    | none => (refreshAccessToken env, true)
  else (refreshAccessToken env, true)

/-- Optional-filter query parameters of `getUserOrders` (`status`, `limit`,
`offset`; each appended only when truthy). -/
structure MLFilters where
  status : JVal := .onull
  limit : JVal := .onull
  offset : JVal := .onull
deriving DecidableEq, Repr

/-- Endpoint URL built by `getUserOrders`. -/
def ordersEndpoint (userId : String) (filters : MLFilters) : String :=
  "https://api.mercadolibre.com/orders/search/recent?seller=" ++ userId ++
  (if jvalTruthy filters.status then "&order.status=" ++ jvalString filters.status else "") ++
  (if jvalTruthy filters.limit then "&limit=" ++ jvalString filters.limit else "") ++
  (if jvalTruthy filters.offset then "&offset=" ++ jvalString filters.offset else "")

/-- MercadoLibreService.getUserOrders: token check, then a single fetch;
a falsy token throws `No valid access token available` before any fetch, a
non-200 throws `ML API error: ...`, and the catch converts either throw into
a failure envelope. -/
def getUserOrders (env : Env) (userId : String) (filters : MLFilters) : Resp × MLTrace :=
  let tk := getValidAccessToken env
  if !optTruthy tk.1 then
    ({ success := some false, error := some "No valid access token available" },
     { refreshCalled := tk.2, apiCalled := false, bearer := none })
  else
    let token := tk.1.getD ""
    match env.ordersHttp (ordersEndpoint userId filters) with
    | .error e =>
      ({ success := some false, error := some e },
       { refreshCalled := tk.2, apiCalled := true, bearer := some token })
    | .ok body =>
      if body.code = 200 then
        ({ success := some true, dataML := some body.data, timestamp := some env.nowISO },
         { refreshCalled := tk.2, apiCalled := true, bearer := some token })
      else
        ({ success := some false,
           error := some ("ML API error: " ++ jvalString (jsOr body.message (.str "Unknown error"))) },
         { refreshCalled := tk.2, apiCalled := true, bearer := some token })

/-- MercadoLibreService.getOrderDetails, same token-then-fetch structure as
`getUserOrders` against the single-order endpoint. -/
def getOrderDetails (env : Env) (orderId : String) : Resp × MLTrace :=
  let tk := getValidAccessToken env
  if !optTruthy tk.1 then
    ({ success := some false, error := some "No valid access token available" },
     { refreshCalled := tk.2, apiCalled := false, bearer := none })
  else
    let token := tk.1.getD ""
    match env.orderHttp orderId with
    | .error e =>
      ({ success := some false, error := some e },
       { refreshCalled := tk.2, apiCalled := true, bearer := some token })
    | .ok body =>
      if body.code = 200 then
        ({ success := some true, dataML := some body.data, timestamp := some env.nowISO },
         { refreshCalled := tk.2, apiCalled := true, bearer := some token })
      else
        ({ success := some false,
           error := some ("ML API error: " ++ jvalString (jsOr body.message (.str "Unknown error"))) },
         { refreshCalled := tk.2, apiCalled := true, bearer := some token })

/-- MercadoLibreService.getProductInfo: public endpoint, no token gate. -/
def getProductInfo (env : Env) (itemId : String) : Resp :=
  match env.itemHttp itemId with
  | .error e => { success := some false, error := some e }
  | .ok body =>
    if body.code = 200 then
      { success := some true, dataML := some body.data, timestamp := some env.nowISO }
    else
      { success := some false,
        error := some ("ML API error: " ++ jvalString (jsOr body.message (.str "Unknown error"))) }

end MercadoLibreService

namespace MenuService

/-- MenuService.getMenu: build the menu envelope over the active options,
the business-hours flag, the matching greeting (ConfigService.getGreetings)
and the footer, and log a `menu_display` interaction with the menu object as
the log data. -/
def getMenu (env : Env) : Resp × List LogEntry :=
  let menuConfig := getMenuConfig env.menuData
  let isBusinessHours := isWithinBusinessHours env.nowTime env.businessHours
  let menu : Resp :=
    { success := some true
      timestamp := some env.nowISO
      businessHours := some isBusinessHours
      greeting := some (if isBusinessHours then env.greetingBusinessHours else env.greetingAfterHours)
      options := some (menuConfig.filter (fun option => option.active))
      footer := some env.footerMessage }
  (menu, [LoggingService.logInteraction env.nowISO "menu_display" none (LogData.ofResp menu)])

/-- MenuService.handleStaticResponse. -/
def handleStaticResponse (env : Env) (option : MenuOption) (sessionId : Option String) :
    Resp × List LogEntry :=
  let response : Resp :=
    { success := some true
      rtype := some "static"
      title := some option.title
      message := some option.response
      showMenu := some option.returnToMenu
      timestamp := some env.nowISO }
  (response, [LoggingService.logInteraction env.nowISO "static_response" sessionId (LogData.ofResp response)])

/-- MenuService.handleAIResponse: call the AI gateway with the option's
provider/context/token budget; on success return the `ai` envelope and log
`ai_response`, otherwise fall back to `handleStaticResponse` with the
option's `fallbackResponse` (or the generic message) spliced in as the
response text.  The gateway catches internally, so its result is the only
failure signal reaching this function. -/
def handleAIResponse (env : Env) (option : MenuOption) (sessionId : Option String) :
    Resp × List LogEntry :=
  let aiProvider := jsOr option.aiProvider (.str "gemini")
  let context : AICtx :=
    { userQuery := option.title
      context := jsOr option.aiContext (.str "")
      maxTokens := jsOr option.maxTokens (.num 500) }
  let aiResponse := AIService.generateResponse env aiProvider context
  if aiResponse.success = some true then
    let response : Resp :=
      { success := some true
        rtype := some "ai"
        title := some option.title
        message := some (.str (aiResponse.content.getD ""))
        provider := some aiProvider
        showMenu := some option.returnToMenu
        timestamp := some env.nowISO }
    (response, [LoggingService.logInteraction env.nowISO "ai_response" sessionId (LogData.ofResp response)])
  else
    handleStaticResponse env
      { option with
        response := jsOr option.fallbackResponse
          (.str "Lo siento, no puedo procesar tu consulta en este momento.") }
      sessionId

/-- MenuService.handleEscalation: recompute business hours, pick the
in-hours or after-hours message (with their defaults; the after-hours
default interpolates the configured display hours), log the escalation with
the matching status, and return the `escalation` envelope. -/
def handleEscalation (env : Env) (option : MenuOption) (sessionId : Option String) :
    Resp × List LogEntry :=
  let isBusinessHours := isWithinBusinessHours env.nowTime env.businessHours
  let message :=
    if isBusinessHours then
      jsOr option.escalationMessage
        (.str "Te estoy conectando con un agente humano. Por favor espera un momento.")
    else
      jsOr option.afterHoursMessage
        (.str ("Actualmente estamos fuera del horario de atención (" ++
          env.businessHours.display ++ "). Tu consulta será atendida en el próximo horario hábil."))
  let lg := LoggingService.logEscalation env.nowISO sessionId option.title
    (if isBusinessHours then "pending" else "after_hours")
  ({ success := some true
     rtype := some "escalation"
     title := some option.title
     message := some message
     businessHours := some isBusinessHours
     showMenu := some false
     timestamp := some env.nowISO }, [lg])

/-- MenuService.processSelection: find the active option whose stringified
`number` equals the stringified selection; no match yields the
invalid-selection response (not logged), a match logs `menu_selection` and
dispatches on `responseType`, an unknown `responseType` yields the
invalid-configuration response.  When the menu is nonempty and the selection
is `undefined`, the find callback's `selection.toString()` throws and the
catch returns the error response. -/
def processSelection (env : Env) (selection : Option String) (sessionId : Option String) :
    Resp × List LogEntry :=
  let menuConfig := getMenuConfig env.menuData
  match menuConfig, selection with
  | [], _ =>
    ({ success := some false
       message := some (.str "Selección inválida. Por favor elige una opción del menú.")
       showMenu := some true }, [])
  | _ :: _, none =>
    ({ success := some false
       message := some (.str "Error procesando tu selección. Intenta nuevamente.")
       showMenu := some true },
     [LoggingService.logError env.nowISO "processSelection"
        "Cannot read properties of undefined (reading 'toString')" sessionId])
  | _ :: _, some sel =>
    match menuConfig.find? (fun option => decide (jvalString option.number = sel) && option.active) with
    | none =>
      ({ success := some false
         message := some (.str "Selección inválida. Por favor elige una opción del menú.")
         showMenu := some true }, [])
    | some selectedOption =>
      let selLog := LoggingService.logInteraction env.nowISO "menu_selection" sessionId
        { selection := some sel }
      if selectedOption.responseType = JVal.str "static" then
        let r := handleStaticResponse env selectedOption sessionId
        (r.1, selLog :: r.2)
      else if selectedOption.responseType = JVal.str "ai" then
        let r := handleAIResponse env selectedOption sessionId
        (r.1, selLog :: r.2)
      else if selectedOption.responseType = JVal.str "escalate" then
        let r := handleEscalation env selectedOption sessionId
        (r.1, selLog :: r.2)
      else
        ({ success := some false
           message := some (.str "Configuración inválida para esta opción.")
           showMenu := some true }, [selLog])

end MenuService

namespace ChatService

/-- ChatService.containsOrderKeywords. -/
def containsOrderKeywords (message : String) : Bool :=
  ["pedido", "orden", "compra", "envío", "seguimiento", "rastreo", "entrega"].any
    (fun keyword => containsSub message keyword)

/-- ChatService.containsProductKeywords. -/
def containsProductKeywords (message : String) : Bool :=
  ["producto", "artículo", "disponibilidad", "precio", "stock", "característica"].any
    (fun keyword => containsSub message keyword)

/-- ChatService.containsEscalationKeywords. -/
def containsEscalationKeywords (message : String) : Bool :=
  ["agente", "humano", "persona", "hablar", "representante", "ayuda directa"].any
    (fun keyword => containsSub message keyword)

/-- Routing target chosen by `determineResponseStrategy`. -/
inductive Strategy where
  | menuRequest
  | orderInquiry
  | productInquiry
  | generalAI
  | escalation
deriving DecidableEq, Repr

/-- ChatService.determineResponseStrategy, in the source's first-match-wins
order over the lowercased message.  The order- and product-inquiry branches
build their strategy context by calling `this.extractOrderContext` /
`this.extractProductContext`, which are not defined anywhere in the
repository, so those branches throw a `TypeError` (modelled as
`Except.error`); the thrown error is caught by `processMessage`. -/
def determineResponseStrategy (message : String) : Except String Strategy :=
  let lowerMessage := jsToLower message
  if containsSub lowerMessage "menú" || containsSub lowerMessage "menu" ||
      containsSub lowerMessage "opciones" || containsSub lowerMessage "ayuda" then
    .ok .menuRequest
  else if containsOrderKeywords lowerMessage then
    .error "this.extractOrderContext is not a function"
  else if containsProductKeywords lowerMessage then
    .error "this.extractProductContext is not a function"
  else if containsEscalationKeywords lowerMessage then
    .ok .escalation
  else .ok .generalAI

/-- Scanner behind `extractOrderId` (regex `/\b\d{12,}\b/`): the leftmost
maximal digit run of length at least 12 whose ends sit on word boundaries. -/
def orderIdScan : Bool → List Char → Option String
  | _, [] => none
  | prevW, c :: rest =>
    let run := runLen isDigitCh (c :: rest)
    if !prevW && isDigitCh c && decide (12 ≤ run) && bAt true ((c :: rest).drop run) then
      some (String.mk ((c :: rest).take run))
    else orderIdScan (isWordCh c) rest

/-- ChatService.extractOrderId. -/
def extractOrderId (message : String) : Option String :=
  orderIdScan false message.toList

/-- Scanner behind `extractProductId` (regex `/MLA\d+/i`): the leftmost
occurrence of the literal prefix `MLA` (case-insensitive) followed by at
least one digit; the greedy `\d+` takes the whole digit run. -/
def productIdScan : List Char → Option String
  | a :: b :: d :: tl =>
    if charLower a = 'm' && charLower b = 'l' && charLower d = 'a' &&
        decide (1 ≤ runLen isDigitCh tl) then
      some (String.mk (a :: b :: d :: tl.take (runLen isDigitCh tl)))
    else productIdScan (b :: d :: tl)
  | _ => none

/-- ChatService.extractProductId. -/
def extractProductId (message : String) : Option String :=
  productIdScan message.toList

/-- ChatService.formatOrderInfo (the date goes through
`toLocaleDateString`, an environment oracle). -/
def formatOrderInfo (env : Env) (orderData : MLData) : String :=
  "📦 **Información del Pedido**\n    \n" ++
  "**Número:** " ++ jvalString orderData.id ++ "\n" ++
  "**Estado:** " ++ jvalString orderData.status ++ "\n" ++
  "**Total:** $" ++ jvalString orderData.totalAmount ++ "\n" ++
  "**Fecha:** " ++ env.localeDate (jvalString orderData.dateCreated) ++
  "\n\n¿Necesitas más información sobre este pedido?"

/-- ChatService.formatProductInfo. -/
def formatProductInfo (productData : MLData) : String :=
  "🛍️ **" ++ jvalString productData.title ++ "**\n    \n" ++
  "**Precio:** $" ++ jvalString productData.price ++ "\n" ++
  "**Disponibles:** " ++ jvalString productData.availableQuantity ++ "\n" ++
  "**Condición:** " ++ jvalString productData.condition ++
  "\n\n¿Te interesa este producto o necesitas más información?"

/-- ChatService.handleDefault. -/
def handleDefault (env : Env) : Resp :=
  { success := some true
    rtype := some "default"
    message := some (.str ("Entiendo tu consulta. ¿Te gustaría ver el menú de opciones " ++
      "disponibles o prefieres que te conecte con un agente humano?"))
    showMenu := some true
    timestamp := some env.nowISO }

/-- Generic order-help prompt context of `handleOrderInquiry`. -/
def orderInquiryAIContext (message : String) : AICtx :=
  { userQuery := .str message
    context := .str ("El usuario está preguntando sobre pedidos. Proporciona información " ++
      "general sobre cómo consultar pedidos, estados de envío, y políticas de devolución.")
    maxTokens := .num 300 }

/-- ChatService.handleOrderInquiry: extract an order id; when found, fetch
the order and on success return the formatted `order_info` envelope;
otherwise (no id, or a failed fetch) return the AI gateway's answer to a
generic order-help prompt directly.  The second component records the order
id of the attempted fetch (`none` when no ML call was made). -/
def handleOrderInquiry (env : Env) (message : String) : Resp × Option String :=
  let aiContext : AICtx := orderInquiryAIContext message
  match extractOrderId message with
  | some orderId =>
    let orderDetails := (MercadoLibreService.getOrderDetails env orderId).1
    match orderDetails.success, orderDetails.dataML with
    | some true, some d =>
      ({ success := some true
         rtype := some "order_info"
         message := some (.str (formatOrderInfo env d))
         dataML := some d
         showMenu := some true
         timestamp := some env.nowISO }, some orderId)
    | _, _ =>
      (AIService.generateResponse env (.str "gemini") aiContext, some orderId)
  | none =>
    (AIService.generateResponse env (.str "gemini") aiContext, none)

/-- Generic product-help prompt context of `handleProductInquiry`. -/
def productInquiryAIContext (message : String) : AICtx :=
  { userQuery := .str message
    context := .str ("El usuario está preguntando sobre productos. Ayuda con información " ++
      "sobre disponibilidad, características, precios, y recomendaciones.")
    maxTokens := .num 300 }

/-- ChatService.handleProductInquiry: extract a product id; when found,
fetch the product and on success return the formatted `product_info`
envelope; otherwise return the AI gateway's answer to a generic
product-help prompt directly.  The second component records the item id of
the attempted fetch (`none` when no ML call was made). -/
def handleProductInquiry (env : Env) (message : String) : Resp × Option String :=
  let aiContext : AICtx := productInquiryAIContext message
  match extractProductId message with
  | some productId =>
    let productInfo := MercadoLibreService.getProductInfo env productId
    match productInfo.success, productInfo.dataML with
    | some true, some d =>
      ({ success := some true
         rtype := some "product_info"
         message := some (.str (formatProductInfo d))
         dataML := some d
         showMenu := some true
         timestamp := some env.nowISO }, some productId)
    | _, _ =>
      (AIService.generateResponse env (.str "gemini") aiContext, some productId)
  | none =>
    (AIService.generateResponse env (.str "gemini") aiContext, none)

/-- ChatService.handleGeneralAI: general persona prompt; on gateway success
an `ai_chat` envelope, otherwise `handleDefault`. -/
def handleGeneralAI (env : Env) (message : String) : Resp :=
  let aiResponse := AIService.generateResponse env (.str "gemini")
    { userQuery := .str message
      context := .str "Conversación general de atención al cliente. Mantén un tono amigable y profesional."
      maxTokens := .num 400 }
  if aiResponse.success = some true then
    { success := some true
      rtype := some "ai_chat"
      message := some (.str (aiResponse.content.getD ""))
      showMenu := some true
      timestamp := some env.nowISO }
  else handleDefault env

/-- ChatService.handleChatEscalation: business-hours check, escalation log
with `pending`/`after_hours` status, fixed in-hours/after-hours message,
`showMenu:false`. -/
def handleChatEscalation (env : Env) (message : String) (sessionId : Option String) :
    Resp × List LogEntry :=
  let isBusinessHours := MenuService.isWithinBusinessHours env.nowTime env.businessHours
  let lg := LoggingService.logEscalation env.nowISO sessionId (.str message)
    (if isBusinessHours then "pending" else "after_hours")
  ({ success := some true
     rtype := some "escalation"
     message := some (.str (if isBusinessHours then
        "Te conectaré con un agente humano. Por favor espera un momento mientras te transfiero."
      else
        "Actualmente estamos fuera del horario de atención. Tu consulta será atendida en el próximo horario hábil."))
     businessHours := some isBusinessHours
     showMenu := some false
     timestamp := some env.nowISO }, [lg])

/-- Catch branch of `processMessage`: the generic apology envelope plus the
error log entry. -/
def processMessageCatch (env : Env) (e : String) (sessionId : Option String) :
    Resp × List LogEntry :=
  ({ success := some false
     message := some (.str ("Lo siento, ocurrió un error procesando tu mensaje. " ++
       "¿Podrías intentar nuevamente?"))
     showMenu := some true
     timestamp := some env.nowISO },
   [LoggingService.logError env.nowISO "processMessage" e sessionId])

/-- ChatService.processMessage: strategy classification, dispatch to the
matching handler, then the `chat_message` interaction log.  An `undefined`
message throws at `message.toLowerCase()`, and the order/product strategy
branches throw on the missing context-extractor methods; the catch converts
any throw into the apology response.  (The session read-merge-write is a
store side effect outside this model.) -/
def processMessage (env : Env) (message : Option String) (sessionId : Option String) :
    Resp × List LogEntry :=
  match message with
  | none =>
    processMessageCatch env "Cannot read properties of undefined (reading 'toLowerCase')" sessionId
  | some msg =>
    match determineResponseStrategy msg with
    | .error e => processMessageCatch env e sessionId
    | .ok strategy =>
      let rl : Resp × List LogEntry :=
        match strategy with
        | .menuRequest => MenuService.getMenu env
        | .orderInquiry => ((handleOrderInquiry env msg).1, [])
        | .productInquiry => ((handleProductInquiry env msg).1, [])
        | .generalAI => (handleGeneralAI env msg, [])
        | .escalation => handleChatEscalation env msg sessionId
      let chatLog := LoggingService.logInteraction env.nowISO "chat_message" sessionId
        { userMessage := some msg, botRespMessage := rl.1.message }
      (rl.1, rl.2 ++ [chatLog])

end ChatService

/-- Top-level dispatcher `handleChatbotRequest`: initialization may throw
(its error is rethrown by `initializeSystem`), the `action` switch sends
`getMenu`/`processSelection`/`sendMessage` to their services and everything
else (including a missing action) to `MenuService.getMenu`, and the catch
converts any escaped throw into the fixed error envelope (with its error
log; the envelope message reproduces the source's mojibake byte-for-byte).
The three services catch internally, so initialization is the only throw
source reaching this catch. -/
def handleChatbotRequest (env : Env) (params : Params) : Resp × List LogEntry :=
  match env.initResult with
  | .error e =>
    ({ success := some false
       error := some "Lo siento, ocurriÃ³ un error. Por favor intenta nuevamente."
       timestamp := some env.nowISO },
     [LoggingService.logError env.nowISO "handleChatbotRequest" e params.sessionId])
  | .ok _ =>
    if params.action = some "getMenu" then MenuService.getMenu env
    else if params.action = some "processSelection" then
      MenuService.processSelection env params.userInput params.sessionId
    else if params.action = some "sendMessage" then
      ChatService.processMessage env params.userInput params.sessionId
    else MenuService.getMenu env

namespace ConfigService

/-- ConfigService.getDefaultBusinessHours: the hard-coded fallback schedule
(Monday to Friday 09:00 to 18:00, weekend closed with no time fields). -/
def getDefaultBusinessHours : BusinessHours :=
  { schedule := fun d =>
      if d = (0 : Fin 7) then { isOpen := false }
      else if d = (6 : Fin 7) then { isOpen := false }
      else { isOpen := true, start := some "09:00", endT := some "18:00" }
    display := "09:00 - 18:00, Mon-Fri"
    timezone := "America/Argentina/Buenos_Aires" }

end ConfigService

namespace SheetsService

/-- SheetsService.setupMenuSheet's sheet contents: the header row followed by
the five sample rows written verbatim by the source (note the last row,
number `0` with title `Salir`). -/
def sampleMenuData : List (List JVal) :=
  [ [.str "Número", .str "Título", .str "Tipo de Respuesta", .str "Respuesta Estática",
     .str "Proveedor IA", .str "Contexto IA", .str "Mensaje Escalación",
     .str "Mensaje Fuera Horario", .str "Respuesta Fallback", .str "Volver al Menú",
     .str "Activo", .str "Max Tokens"],
    [.num 1, .str "Estado de mi pedido", .str "ai", .str "", .str "gemini",
     .str "Ayuda con consultas sobre el estado de pedidos y seguimiento de envíos",
     .str "", .str "", .str "Consulta el estado de tu pedido en tu cuenta",
     .bool true, .bool true, .num 300],
    [.num 2, .str "Información de productos", .str "ai", .str "", .str "gemini",
     .str "Proporciona información sobre productos, precios y disponibilidad",
     .str "", .str "", .str "Consulta nuestro catálogo en línea",
     .bool true, .bool true, .num 300],
    [.num 3, .str "Política de devoluciones", .str "static",
     .str "Puedes devolver productos dentro de 30 días. Visita nuestra sección de devoluciones para más detalles.",
     .str "", .str "", .str "", .str "", .str "", .bool true, .bool true, .num 0],
    [.num 4, .str "Hablar con un agente", .str "escalate", .str "", .str "", .str "",
     .str "Te conectamos con un agente humano",
     .str "Fuera del horario de atención. Te contactaremos pronto.",
     .str "", .bool false, .bool true, .num 0],
    [.num 0, .str "Salir", .str "static",
     .str "Gracias por contactarnos. ¡Que tengas un excelente día!",
     .str "", .str "", .str "", .str "", .str "", .bool false, .bool true, .num 0] ]

end SheetsService

/-- Concrete environment used to instantiate the universally quantified
theorems: sample sheet data, default business hours, a Monday 10:00 clock,
a configured Gemini key with a succeeding fetch, and otherwise failing or
absent external resources. -/
def sampleEnv : Env :=
  { initResult := .ok ()
    nowISO := "2024-01-15T10:00:00.000Z"
    nowMs := 1705312800000
    nowTime := { day := 1, hour := 10, minute := 0 }
    businessHours := ConfigService.getDefaultBusinessHours
    greetingBusinessHours := "¡Hola! Bienvenido a nuestro servicio de atención al cliente. ¿En qué puedo ayudarte?"
    greetingAfterHours := "Hola. Actualmente estamos fuera del horario de atención, pero puedo ayudarte con algunas consultas básicas."
    footerMessage := "Escribe el número de la opción que necesitas o describe tu consulta."
    menuData := .ok SheetsService.sampleMenuData
    parseDateMs := fun _ => none
    localeDate := fun s => s
    mlAccessToken := none
    mlAccessTokenExpira := none
    mlClientId := none
    mlClientSecret := none
    mlRefreshToken := none
    mlUserId := none
    geminiApiKey := some "gk"
    claudeApiKey := none
    geminiHttp := fun _ _ => .ok { code := 200, present := true, text := some "respuesta" }
    claudeHttp := fun _ _ => .error "DNS error"
    refreshHttp := .error "DNS error"
    ordersHttp := fun _ => .error "DNS error"
    orderHttp := fun _ => .error "DNS error"
    itemHttp := fun _ => .error "DNS error" }

/-- Scan deciding that a matcher finds no match at any position of the
string (tracking the same word-boundary state as `replaceScan`). -/
def cleanScan (m : Bool → List Char → Option Nat) : Bool → List Char → Bool
  | _, [] => true
  | prevW, c :: rest => (m prevW (c :: rest)).isNone && cleanScan m (isWordCh c) rest

/-- All three sanitizer patterns are absent from the string. -/
def sanitizeCleanChars (l : List Char) : Bool :=
  cleanScan cardMatchAt false l && cleanScan emailMatchAt false l &&
    cleanScan phoneMatchAt false l

/-- A 501-character input: 488 filler characters followed by
`123-456-78901`.  The trailing extra digit blocks the phone pattern's word
boundary, so one masking pass changes nothing, and the truncation to 500
characters then exposes a bare `123-456-7890` at the end. -/
def overlongInput : List Char := List.replicate 488 '(' ++ "123-456-78901".toList

/-- JS `Math.round(a / b)` on a nonzero denominator, as exact integer
arithmetic: the floor of `a/b + 1/2` (ties round toward positive infinity,
matching `Math.round`). -/
def jsRound (a b : Int) : Int := Int.fdiv (2 * a + b) (2 * b)

/-- One `Chat_Logs` row as destructured by `getAnalytics` (source line
`const [timestamp, sessionId, interactionType, ...] = log`); the timestamp
is modelled by the two derived values the code reads from it:
`new Date(timestamp).getHours()` and the ISO date part. -/
structure AnalyticsRow where
  tsHour : Nat
  tsDate : String
  sessionId : String := ""
  itype : String
  userMsg : String := ""
  botMsg : String := ""
  provider : JVal := .str ""
  responseTime : JVal := .num 0
  status : String
deriving DecidableEq, Repr

/-- Per-day counters of `dailyStats`. -/
structure DailyStat where
  total : Nat
  successful : Nat
  escalations : Nat
deriving DecidableEq, Repr

/-- Result shape of `LoggingService.getAnalytics`. -/
structure Analytics where
  totalInteractions : Nat
  interactionsByType : List (String × Nat)
  successRate : Int
  averageResponseTime : Int
  escalationRate : Int
  aiUsage : List (String × Nat)
  topErrors : List String
  busyHours : List (Nat × Nat)
  dailyStats : List (String × DailyStat)
deriving DecidableEq, Repr

/-- Increment a counter object key (JS `obj[k] = (obj[k] || 0) + 1`;
insertion order preserved, as for JS object keys). -/
def bump {α : Type} [DecidableEq α] : List (α × Nat) → α → List (α × Nat)
  | [], k => [(k, 1)]
  | (a, n) :: t, k => if a = k then (a, n + 1) :: t else (a, n) :: bump t k

/-- Update one day's counters in `dailyStats` (creating the `{total:0,...}`
record on first sight, then incrementing). -/
def bumpDay : List (String × DailyStat) → String → Bool → Bool → List (String × DailyStat)
  | [], k, isSucc, isEsc =>
    [(k, { total := 1, successful := if isSucc then 1 else 0,
           escalations := if isEsc then 1 else 0 })]
  | (a, d) :: t, k, isSucc, isEsc =>
    if a = k then
      (a, { total := d.total + 1,
            successful := d.successful + (if isSucc then 1 else 0),
            escalations := d.escalations + (if isEsc then 1 else 0) }) :: t
    else (a, d) :: bumpDay t k isSucc isEsc

/-- Contribution of one row's response-time cell to `totalResponseTime`
(`if (responseTime && !isNaN(responseTime)) totalResponseTime +=
Number(responseTime)`). -/
def rtContrib : JVal → Int
  | .num n => if n ≠ 0 then n else 0
  | .str s => if s ≠ "" && (jsNumberOfString s).isSome then (jsNumberOfString s).getD 0 else 0
  | .bool b => if b then 1 else 0
  | .onull => 0

namespace LoggingService

/-- LoggingService.getAnalytics over an (already filtered) log set: counts
by interaction type, rates rounded from `count / total * 100`, average
response time, AI usage keyed by truthy provider, hourly histogram and
per-day counters; every per-row accumulation of the source's single
`forEach` is translated to the corresponding fold/count over the rows. -/
def getAnalytics (logs : List AnalyticsRow) : Analytics :=
  let successfulInteractions := logs.countP (fun log => log.status = "success")
  let escalations := logs.countP (fun log => log.itype = "escalation")
  let totalResponseTime := logs.foldl (fun acc log => acc + rtContrib log.responseTime) 0
  { totalInteractions := logs.length
    interactionsByType := logs.foldl (fun acc log => bump acc log.itype) []
    successRate :=
      if logs.length > 0 then jsRound (100 * successfulInteractions) logs.length else 0
    averageResponseTime :=
      if logs.length > 0 then jsRound totalResponseTime logs.length else 0
    escalationRate :=
      if logs.length > 0 then jsRound (100 * escalations) logs.length else 0
    aiUsage := logs.foldl (fun acc log =>
      if jvalTruthy log.provider then bump acc (jvalString log.provider) else acc) []
    topErrors := []
    busyHours := logs.foldl (fun acc log => bump acc log.tsHour) []
    dailyStats := logs.foldl (fun acc log =>
      bumpDay acc log.tsDate (log.status = "success") (log.itype = "escalation")) [] }

end LoggingService

/-- Envelope invariant that every dispatcher path satisfies: the `success`
field is always present, and a `success:true` response also carries the
timestamp. -/
def respOk (r : Resp) : Prop :=
  r.success.isSome = true ∧ (r.success = some true → r.timestamp.isSome = true)

/-- Stored-token validity condition of `getValidAccessToken`: token and
expiry present, the expiry parses, and the current time is strictly earlier
than the expiry minus the 5-minute buffer. -/
def MercadoLibreService.storedTokenFresh (env : Env) : Bool :=
  optTruthy env.mlAccessToken && optTruthy env.mlAccessTokenExpira &&
    (match env.parseDateMs (env.mlAccessTokenExpira.getD "") with
     | some expiryMs => decide (env.nowMs < expiryMs - 300000)
     | none => false)

/-- The three-entry log set of the analytics example: `menu_display/success`,
`escalation/pending`, and `ai_response/error` with provider `gemini`. -/
def sampleAnalyticsLogs : List AnalyticsRow :=
  [ { tsHour := 10, tsDate := "2024-01-15", itype := "menu_display", status := "success" },
    { tsHour := 11, tsDate := "2024-01-15", itype := "escalation", status := "pending" },
    { tsHour := 12, tsDate := "2024-01-15", itype := "ai_response", status := "error",
      provider := .str "gemini" } ]

/-- Modelled from the claim's wording (the comparator for C10, not from the
source): scan for a token made of a 3-letter alphabetic prefix followed by
at least one digit. -/
def claimTokenScan : List Char → Bool
  | a :: b :: c :: tl =>
    (isAsciiLetter a && isAsciiLetter b && isAsciiLetter c &&
      decide (1 ≤ runLen isDigitCh tl)) || claimTokenScan (b :: c :: tl)
  | _ => false

/-- Modelled from the claim's wording: the message contains a token made of
a 3-letter alphabetic prefix followed by digits. -/
def claimHasProductToken (s : String) : Bool := claimTokenScan s.toList

/-- Modelled from the amended claim's wording (the comparator for the
amended C10's completeness and leftmost-ness statements): the declarative
reading of the regex `/MLA\d+/i` at a single position — the list starts
with the letters `M`, `L`, `A` (case-insensitively) followed by a digit. -/
def mlaMatchAt : List Char → Bool
  | a :: b :: d :: e :: _ =>
    charLower a = 'm' && charLower b = 'l' && charLower d = 'a' && isDigitCh e
  | _ => false

/-- Concrete environment whose product endpoint succeeds, used to
instantiate the product-inquiry theorems. -/
def sampleProductEnv : Env :=
  { sampleEnv with
    itemHttp := fun _ => .ok
      { code := 200
        data := { title := .str "Teclado mecánico", price := .num 45000,
                  availableQuantity := .num 5, condition := .str "new" } } }

/-! ### Supporting lemmas -/

/-- A replacement pass (with sufficient fuel) over a string in which the
matcher finds nothing is the identity. -/
theorem replaceScanGo_of_cleanScan (m : Bool → List Char → Option Nat) (repl : List Char) :
    ∀ (l : List Char) (fuel : Nat) (prevW : Bool), l.length ≤ fuel →
      cleanScan m prevW l = true → replaceScanGo m repl fuel prevW l = l := by
  intro l
  induction l with
  | nil =>
    intro fuel prevW _ _
    cases fuel <;> rfl
  | cons c rest ih =>
    intro fuel prevW hfuel h
    unfold cleanScan at h
    rw [Bool.and_eq_true] at h
    have hm : m prevW (c :: rest) = none := Option.isNone_iff_eq_none.mp h.1
    match fuel, hfuel with
    | f + 1, hfuel =>
      unfold replaceScanGo
      rw [hm]
      have : rest.length ≤ f := by simpa [Nat.succ_le_succ_iff] using hfuel
      simpa using ih f (isWordCh c) this h.2

/-- A replacement pass over a string in which the matcher finds nothing is
the identity. -/
theorem replaceScan_of_cleanScan (m : Bool → List Char → Option Nat) (repl : List Char)
    (l : List Char) (prevW : Bool) (h : cleanScan m prevW l = true) :
    replaceScan m repl prevW l = l :=
  replaceScanGo_of_cleanScan m repl l l.length prevW (Nat.le_refl _) h

theorem respOk_callGemini (env : Env) (context : AICtx) :
    respOk (AIService.callGemini env context) := by
  unfold AIService.callGemini AIService.geminiErr respOk
  repeat' split
  all_goals simp

theorem respOk_callClaude (env : Env) (context : AICtx) :
    respOk (AIService.callClaude env context) := by
  unfold AIService.callClaude AIService.claudeErr respOk
  repeat' split
  all_goals simp

theorem respOk_generateResponse (env : Env) (provider : JVal) (context : AICtx) :
    respOk (AIService.generateResponse env provider context) := by
  unfold AIService.generateResponse
  split
  · exact respOk_callGemini env context
  · split
    · exact respOk_callClaude env context
    · exact ⟨rfl, by intro h; simp at h⟩

theorem respOk_getProductInfo (env : Env) (itemId : String) :
    respOk (MercadoLibreService.getProductInfo env itemId) := by
  unfold MercadoLibreService.getProductInfo respOk
  repeat' split
  all_goals simp

theorem respOk_getOrderDetails (env : Env) (orderId : String) :
    respOk (MercadoLibreService.getOrderDetails env orderId).1 := by
  unfold MercadoLibreService.getOrderDetails respOk
  dsimp only
  split_ifs
  · simp
  · cases henv : env.orderHttp orderId with
    | error e => simp [henv]
    | ok body => by_cases hc : body.code = 200 <;> simp [henv, hc]

theorem respOk_getUserOrders (env : Env) (userId : String) (filters : MercadoLibreService.MLFilters) :
    respOk (MercadoLibreService.getUserOrders env userId filters).1 := by
  unfold MercadoLibreService.getUserOrders respOk
  dsimp only
  split_ifs
  · simp
  · cases henv : env.ordersHttp (MercadoLibreService.ordersEndpoint userId filters) with
    | error e => simp [henv]
    | ok body => by_cases hc : body.code = 200 <;> simp [henv, hc]

theorem respOk_handleStaticResponse (env : Env) (option : MenuOption) (sessionId : Option String) :
    respOk (MenuService.handleStaticResponse env option sessionId).1 :=
  ⟨rfl, fun _ => rfl⟩

theorem respOk_handleAIResponse (env : Env) (option : MenuOption) (sessionId : Option String) :
    respOk (MenuService.handleAIResponse env option sessionId).1 := by
  unfold MenuService.handleAIResponse
  dsimp only
  split
  · exact ⟨rfl, fun _ => rfl⟩
  · apply respOk_handleStaticResponse

theorem respOk_handleEscalation (env : Env) (option : MenuOption) (sessionId : Option String) :
    respOk (MenuService.handleEscalation env option sessionId).1 :=
  ⟨rfl, fun _ => rfl⟩

theorem respOk_getMenu (env : Env) : respOk (MenuService.getMenu env).1 :=
  ⟨rfl, fun _ => rfl⟩

theorem respOk_processSelection (env : Env) (selection sessionId : Option String) :
    respOk (MenuService.processSelection env selection sessionId).1 := by
  unfold MenuService.processSelection
  dsimp only
  repeat' split
  all_goals first
    | exact respOk_handleStaticResponse env _ sessionId
    | exact respOk_handleAIResponse env _ sessionId
    | exact respOk_handleEscalation env _ sessionId
    | exact ⟨rfl, by intro h; simp at h⟩

theorem respOk_handleDefault (env : Env) : respOk (ChatService.handleDefault env) :=
  ⟨rfl, fun _ => rfl⟩

theorem respOk_handleGeneralAI (env : Env) (message : String) :
    respOk (ChatService.handleGeneralAI env message) := by
  unfold ChatService.handleGeneralAI
  dsimp only
  split
  · exact ⟨rfl, fun _ => rfl⟩
  · exact respOk_handleDefault env

theorem respOk_handleOrderInquiry (env : Env) (message : String) :
    respOk (ChatService.handleOrderInquiry env message).1 := by
  unfold ChatService.handleOrderInquiry
  dsimp only
  repeat' split
  all_goals first
    | exact respOk_generateResponse env _ _
    | exact ⟨rfl, fun _ => rfl⟩

theorem respOk_handleProductInquiry (env : Env) (message : String) :
    respOk (ChatService.handleProductInquiry env message).1 := by
  unfold ChatService.handleProductInquiry
  dsimp only
  repeat' split
  all_goals first
    | exact respOk_generateResponse env _ _
    | exact ⟨rfl, fun _ => rfl⟩

theorem respOk_handleChatEscalation (env : Env) (message : String) (sessionId : Option String) :
    respOk (ChatService.handleChatEscalation env message sessionId).1 :=
  ⟨rfl, fun _ => rfl⟩

theorem respOk_processMessage (env : Env) (message sessionId : Option String) :
    respOk (ChatService.processMessage env message sessionId).1 := by
  unfold ChatService.processMessage ChatService.processMessageCatch
  dsimp only
  repeat' split
  all_goals first
    | exact respOk_getMenu env
    | exact respOk_handleOrderInquiry env _
    | exact respOk_handleProductInquiry env _
    | exact respOk_handleGeneralAI env _
    | exact respOk_handleChatEscalation env _ sessionId
    | exact ⟨rfl, by intro h; simp at h⟩

/-! ### Claims -/

/-- C3 (code bug): the spec requires every metadata key containing
`apikey` case-insensitively to be redacted, and the source lowercases each
key for exactly that purpose, but its needle list contains the mixed-case
`'apiKey'`, which JS's case-sensitive `includes` can never find inside a
lowercased key.  At the failing input `{apiKey: "sk-123"}` the value is
left intact even though the key matches the claim's pattern, while a
lowercase-needle key (`password1`) is redacted as intended. -/
theorem sanitizeMetadata_apiKey_left_unredacted :
    containsSub (jsToLower "apiKey") "apikey" = true ∧
    sanitizeMetadata [("apiKey", JVal.str "sk-123"), ("password1", JVal.str "p")] =
      [("apiKey", JVal.str "sk-123"), ("password1", JVal.str "[REDACTED]")] := by
  constructor
  · decide
  · decide

/-- C9 (code bug): the loaded menu set keeps a row only when
`item.number && item.title` is truthy, and the number `0` is falsy in JS,
so the source's own sample row `[0, 'Salir', ...]` — number and title both
present, reserved exit number `0`, marked active — is silently dropped:
only the four other sample rows survive. -/
theorem getMenuConfig_drops_exit_row :
    ((SheetsService.sampleMenuData.getD 5 []).getD 0 .onull = JVal.num 0 ∧
      (SheetsService.sampleMenuData.getD 5 []).getD 1 .onull = JVal.str "Salir" ∧
      (SheetsService.sampleMenuData.getD 5 []).getD 10 .onull ≠ JVal.bool false) ∧
    ((MenuService.getMenuConfig (.ok SheetsService.sampleMenuData)).map
        (fun option => option.title)) =
      [.str "Estado de mi pedido", .str "Información de productos",
       .str "Política de devoluciones", .str "Hablar con un agente"] := by
  constructor
  · refine ⟨rfl, rfl, ?_⟩; decide
  · rfl

set_option maxRecDepth 40000 in
/-- C7 (counterexample): sanitization is not idempotent as claimed.  At the
501-character input `overlongInput` the masking pass changes nothing (the
trailing 13th digit denies the phone pattern its closing word boundary), the
truncation to 500 characters then ends the string right after
`123-456-7890`, and the second sanitization masks that newly exposed phone
pattern, so re-sanitizing changes the string. -/
theorem sanitizeMessage_not_idempotent :
    sanitizeMessage (.str (sanitizeMessage (.str (String.mk overlongInput)))) ≠
      sanitizeMessage (.str (String.mk overlongInput)) := by
  decide

/-- C7 (amended): the sanitized result never exceeds 500 characters, and
re-sanitizing leaves it unchanged provided the sanitized result itself
contains no card, email or phone pattern — the condition the 500-character
truncation can break by exposing a pattern (absent truncation the masking
pass establishes it). -/
theorem sanitizeMessage_bounded_and_idempotent (s : String) :
    (sanitizeMessage (.str s)).length ≤ 500 ∧
    (sanitizeCleanChars (sanitizeMessage (.str s)).toList = true →
      sanitizeMessage (.str (sanitizeMessage (.str s))) = sanitizeMessage (.str s)) := by
  have hexp : ∀ l : List Char, sanitizeChars l =
      (replaceScan phoneMatchAt ("[PHONE]".toList) false
        (replaceScan emailMatchAt ("[EMAIL]".toList) false
          (replaceScan cardMatchAt ("[CARD_NUMBER]".toList) false l))).take 500 :=
    fun _ => rfl
  have hlen : (sanitizeChars s.toList).length ≤ 500 := by
    rw [hexp]
    simp
  constructor
  · show (String.mk (sanitizeChars s.toList)).length ≤ 500
    exact hlen
  · intro h
    unfold sanitizeCleanChars at h
    rw [Bool.and_eq_true, Bool.and_eq_true] at h
    have h1 : cleanScan cardMatchAt false (sanitizeChars s.toList) = true := h.1.1
    have h2 : cleanScan emailMatchAt false (sanitizeChars s.toList) = true := h.1.2
    have h3 : cleanScan phoneMatchAt false (sanitizeChars s.toList) = true := h.2
    have hid : sanitizeChars (sanitizeChars s.toList) = sanitizeChars s.toList := by
      rw [hexp (sanitizeChars s.toList),
          replaceScan_of_cleanScan _ _ _ _ h1,
          replaceScan_of_cleanScan _ _ _ _ h2,
          replaceScan_of_cleanScan _ _ _ _ h3]
      exact List.take_of_length_le hlen
    show String.mk (sanitizeChars (String.mk (sanitizeChars s.toList)).toList) =
      String.mk (sanitizeChars s.toList)
    exact congrArg String.mk hid

/-- C7 (witness): the amended theorem applied at a short concrete input
whose sanitized form is pattern-free. -/
theorem sanitizeMessage_bounded_and_idempotent_witness :
    sanitizeCleanChars (sanitizeMessage (.str "hola 123")).toList = true ∧
    sanitizeMessage (.str (sanitizeMessage (.str "hola 123"))) =
      sanitizeMessage (.str "hola 123") :=
  ⟨by decide, (sanitizeMessage_bounded_and_idempotent "hola 123").2 (by decide)⟩

/-- C6 (confirmed): for a weekday entry open with start `09:00` and end
`18:00`, the business-hours test holds exactly when the minutes-since-
midnight lie in `[540, 1080]` — inclusive at both endpoints, so 09:00 and
18:00 are in-hours while 08:59 and 18:01 are not — and a closed weekday is
always out of hours. -/
theorem isWithinBusinessHours_boundary (bh : BusinessHours) (t : ClockTime) :
    ((bh.schedule t.day).isOpen = true → (bh.schedule t.day).start = some "09:00" →
      (bh.schedule t.day).endT = some "18:00" →
      (MenuService.isWithinBusinessHours t bh = true ↔
        (540 ≤ t.hour * 60 + t.minute ∧ t.hour * 60 + t.minute ≤ 1080))) ∧
    ((bh.schedule t.day).isOpen = false → MenuService.isWithinBusinessHours t bh = false) := by
  constructor
  · intro hopen hstart hend
    have p1 : MenuService.parseTime "09:00" = some 540 := rfl
    have p2 : MenuService.parseTime "18:00" = some 1080 := rfl
    unfold MenuService.isWithinBusinessHours
    rw [hopen, hstart, hend]
    simp only [Bool.not_true, Bool.false_eq_true, if_false, p1, p2,
      Bool.and_eq_true, decide_eq_true_eq]
    constructor
    · rintro ⟨h1, h2⟩
      constructor <;> [exact_mod_cast h1; exact_mod_cast h2]
    · rintro ⟨h1, h2⟩
      constructor <;> [exact_mod_cast h1; exact_mod_cast h2]
  · intro hclosed
    unfold MenuService.isWithinBusinessHours
    rw [hclosed]
    rfl

/-- C6 (witness): the theorem instantiated at the hard-coded default
schedule, covering both boundary times, the two out-of-hours neighbours and
a closed day. -/
theorem isWithinBusinessHours_boundary_witness :
    MenuService.isWithinBusinessHours ⟨1, 9, 0⟩ ConfigService.getDefaultBusinessHours = true ∧
    MenuService.isWithinBusinessHours ⟨1, 18, 0⟩ ConfigService.getDefaultBusinessHours = true ∧
    MenuService.isWithinBusinessHours ⟨1, 8, 59⟩ ConfigService.getDefaultBusinessHours = false ∧
    MenuService.isWithinBusinessHours ⟨1, 18, 1⟩ ConfigService.getDefaultBusinessHours = false ∧
    MenuService.isWithinBusinessHours ⟨0, 10, 0⟩ ConfigService.getDefaultBusinessHours = false := by
  refine ⟨?_, ?_, ?_, ?_, ?_⟩
  · exact ((isWithinBusinessHours_boundary ConfigService.getDefaultBusinessHours
      ⟨1, 9, 0⟩).1 rfl rfl rfl).mpr (by decide)
  · exact ((isWithinBusinessHours_boundary ConfigService.getDefaultBusinessHours
      ⟨1, 18, 0⟩).1 rfl rfl rfl).mpr (by decide)
  · have h := (isWithinBusinessHours_boundary ConfigService.getDefaultBusinessHours
      ⟨1, 8, 59⟩).1 rfl rfl rfl
    have : ¬(540 ≤ 8 * 60 + 59 ∧ 8 * 60 + 59 ≤ 1080) := by decide
    exact Bool.eq_false_iff.mpr (fun hc => this (h.mp hc))
  · have h := (isWithinBusinessHours_boundary ConfigService.getDefaultBusinessHours
      ⟨1, 18, 1⟩).1 rfl rfl rfl
    have : ¬(540 ≤ 18 * 60 + 1 ∧ 18 * 60 + 1 ≤ 1080) := by decide
    exact Bool.eq_false_iff.mpr (fun hc => this (h.mp hc))
  · exact (isWithinBusinessHours_boundary ConfigService.getDefaultBusinessHours
      ⟨0, 10, 0⟩).2 rfl

/-- C1 (confirmed): the dispatcher is a total function of the request (no
exception escapes: the only throw source that can reach its catch is the
initialization step, every service call catching internally), a caught
error is converted into the fixed JSON envelope with `success:false`, an
error string and a timestamp, and any action other than `processSelection`
and `sendMessage` — including a missing one — is dispatched to
`MenuService.getMenu`. -/
theorem handleChatbotRequest_catch_and_default (env : Env) (params : Params) :
    (∀ e, env.initResult = .error e →
      handleChatbotRequest env params =
        ({ success := some false
           error := some "Lo siento, ocurriÃ³ un error. Por favor intenta nuevamente."
           timestamp := some env.nowISO },
         [LoggingService.logError env.nowISO "handleChatbotRequest" e params.sessionId])) ∧
    (env.initResult = .ok () →
      ((∀ a, params.action = some a → a ≠ "processSelection" → a ≠ "sendMessage" →
        handleChatbotRequest env params = MenuService.getMenu env) ∧
       (params.action = none → handleChatbotRequest env params = MenuService.getMenu env))) := by
  constructor
  · intro e he
    unfold handleChatbotRequest
    rw [he]
  · intro hok
    constructor
    · intro a ha hps hsm
      unfold handleChatbotRequest
      rw [hok, ha]
      by_cases hg : a = "getMenu"
      · subst hg; rfl
      · rw [if_neg (by simpa using hg), if_neg (by simpa using hps),
          if_neg (by simpa using hsm)]
    · intro ha
      unfold handleChatbotRequest
      rw [hok, ha]
      rfl

/-- C1 (witness): the theorem applied at a failing initialization and at an
unrecognized action over the sample environment. -/
theorem handleChatbotRequest_catch_and_default_witness :
    handleChatbotRequest { sampleEnv with initResult := .error "boom" } {} =
      ({ success := some false
         error := some "Lo siento, ocurriÃ³ un error. Por favor intenta nuevamente."
         timestamp := some "2024-01-15T10:00:00.000Z" },
       [LoggingService.logError "2024-01-15T10:00:00.000Z" "handleChatbotRequest" "boom" none]) ∧
    handleChatbotRequest sampleEnv { action := some "unknownAction" } =
      MenuService.getMenu sampleEnv := by
  constructor
  · exact (handleChatbotRequest_catch_and_default
      { sampleEnv with initResult := .error "boom" } {}).1 "boom" rfl
  · exact ((handleChatbotRequest_catch_and_default sampleEnv
      { action := some "unknownAction" }).2 rfl).1 "unknownAction" rfl
      (by decide) (by decide)

/-- C2 (counterexample): not every dispatcher response carries a timestamp.
Dispatching the sample environment's menu with the unmatched selection `99`
returns the invalid-selection envelope `{success:false, message, showMenu}`,
which has no `timestamp` field. -/
theorem dispatcher_response_without_timestamp :
    (handleChatbotRequest sampleEnv
      { action := some "processSelection", userInput := some "99", sessionId := some "s1" }).1.timestamp
      = none := by
  decide

/-- C2 (amended): every dispatcher response contains the boolean `success`
field, and every successful (`success:true`) response also contains the
timestamp; the timestamp can be absent only on failure envelopes (the
menu-selection rejection and error responses and the AI-gateway failure
envelopes that the chat order/product fallbacks return directly). -/
theorem dispatcher_envelope_minimum_shape (env : Env) (params : Params) :
    (handleChatbotRequest env params).1.success.isSome = true ∧
    ((handleChatbotRequest env params).1.success = some true →
      (handleChatbotRequest env params).1.timestamp.isSome = true) := by
  have : respOk (handleChatbotRequest env params).1 := by
    unfold handleChatbotRequest
    repeat' split
    all_goals first
      | exact respOk_getMenu env
      | exact respOk_processSelection env params.userInput params.sessionId
      | exact respOk_processMessage env params.userInput params.sessionId
      | exact ⟨rfl, fun _ => rfl⟩
  exact this

/-- C2 (witness): the amended theorem applied to a menu fetch over the
sample environment, whose successful response therefore carries the
timestamp. -/
theorem dispatcher_envelope_minimum_shape_witness :
    (handleChatbotRequest sampleEnv { action := some "getMenu" }).1.timestamp.isSome = true :=
  (dispatcher_envelope_minimum_shape sampleEnv { action := some "getMenu" }).2 (by decide)

theorem getUserOrders_bearer (env : Env) (userId : String)
    (filters : MercadoLibreService.MLFilters) (t : String)
    (h : MercadoLibreService.getValidAccessToken env = (some t, false)) (ht : t ≠ "") :
    (MercadoLibreService.getUserOrders env userId filters).2.bearer = some t ∧
    (MercadoLibreService.getUserOrders env userId filters).2.refreshCalled = false := by
  unfold MercadoLibreService.getUserOrders
  dsimp only
  rw [h]
  rw [if_neg (by simp [optTruthy, ht])]
  cases env.ordersHttp (MercadoLibreService.ordersEndpoint userId filters) with
  | error e => exact ⟨rfl, rfl⟩
  | ok body => by_cases hc : body.code = 200 <;> simp [hc]

theorem getOrderDetails_bearer (env : Env) (orderId : String) (t : String)
    (h : MercadoLibreService.getValidAccessToken env = (some t, false)) (ht : t ≠ "") :
    (MercadoLibreService.getOrderDetails env orderId).2.bearer = some t ∧
    (MercadoLibreService.getOrderDetails env orderId).2.refreshCalled = false := by
  unfold MercadoLibreService.getOrderDetails
  dsimp only
  rw [h]
  rw [if_neg (by simp [optTruthy, ht])]
  cases env.orderHttp orderId with
  | error e => exact ⟨rfl, rfl⟩
  | ok body => by_cases hc : body.code = 200 <;> simp [hc]

theorem getValidAccessToken_fresh (env : Env)
    (hf : MercadoLibreService.storedTokenFresh env = true) :
    MercadoLibreService.getValidAccessToken env = (env.mlAccessToken, false) := by
  unfold MercadoLibreService.storedTokenFresh at hf
  rw [Bool.and_eq_true, Bool.and_eq_true] at hf
  obtain ⟨⟨hA, hB⟩, hC⟩ := hf
  cases hp : env.parseDateMs (env.mlAccessTokenExpira.getD "") with
  | none => rw [hp] at hC; simp at hC
  | some expiryMs =>
    rw [hp] at hC
    simp only [decide_eq_true_eq] at hC
    unfold MercadoLibreService.getValidAccessToken
    rw [if_pos (by simp [hA, hB])]
    rw [hp]
    dsimp only
    rw [if_pos hC]

theorem getValidAccessToken_stale (env : Env)
    (hf : MercadoLibreService.storedTokenFresh env = false) :
    MercadoLibreService.getValidAccessToken env =
      (MercadoLibreService.refreshAccessToken env, true) := by
  unfold MercadoLibreService.storedTokenFresh at hf
  unfold MercadoLibreService.getValidAccessToken
  by_cases hpres : (optTruthy env.mlAccessToken && optTruthy env.mlAccessTokenExpira) = true
  · rw [if_pos hpres]
    rw [hpres] at hf
    simp only [Bool.true_and] at hf
    cases hp : env.parseDateMs (env.mlAccessTokenExpira.getD "") with
    | none => rfl
    | some expiryMs =>
      rw [hp] at hf
      have hlt : ¬(env.nowMs < expiryMs - 300000) := by simpa using hf
      dsimp only
      rw [if_neg hlt]
  · rw [if_neg hpres]

/-- C4 (confirmed): the order/product gateway's authenticated operations use
the stored access token as-is exactly when `now < expiry - 5min` (token and
expiry present and parseable); in every other case a refresh-token grant is
attempted first, a missing credential makes the refresh fail, and a failed
refresh makes both operations return the `No valid access token available`
failure with no underlying API call issued. -/
theorem ml_token_lifecycle (env : Env) (userId orderId : String)
    (filters : MercadoLibreService.MLFilters) :
    (MercadoLibreService.storedTokenFresh env = true →
      MercadoLibreService.getValidAccessToken env = (env.mlAccessToken, false) ∧
      (MercadoLibreService.getUserOrders env userId filters).2.bearer = env.mlAccessToken ∧
      (MercadoLibreService.getUserOrders env userId filters).2.refreshCalled = false ∧
      (MercadoLibreService.getOrderDetails env orderId).2.bearer = env.mlAccessToken ∧
      (MercadoLibreService.getOrderDetails env orderId).2.refreshCalled = false) ∧
    (MercadoLibreService.storedTokenFresh env = false →
      MercadoLibreService.getValidAccessToken env =
        (MercadoLibreService.refreshAccessToken env, true)) ∧
    (MercadoLibreService.storedTokenFresh env = false →
      MercadoLibreService.refreshAccessToken env = none →
      MercadoLibreService.getUserOrders env userId filters =
        ({ success := some false, error := some "No valid access token available" },
         { refreshCalled := true, apiCalled := false, bearer := none }) ∧
      MercadoLibreService.getOrderDetails env orderId =
        ({ success := some false, error := some "No valid access token available" },
         { refreshCalled := true, apiCalled := false, bearer := none })) ∧
    ((optTruthy env.mlClientId && optTruthy env.mlClientSecret &&
        optTruthy env.mlRefreshToken) = false →
      MercadoLibreService.refreshAccessToken env = none) := by
  refine ⟨?_, ?_, ?_, ?_⟩
  · intro hf
    have hvalid := getValidAccessToken_fresh env hf
    have hA : optTruthy env.mlAccessToken = true := by
      unfold MercadoLibreService.storedTokenFresh at hf
      rw [Bool.and_eq_true, Bool.and_eq_true] at hf
      exact hf.1.1
    cases hat : env.mlAccessToken with
    | none => rw [hat] at hA; simp [optTruthy] at hA
    | some t =>
      have ht : t ≠ "" := by
        rw [hat] at hA; simpa [optTruthy] using hA
      have hvalid' : MercadoLibreService.getValidAccessToken env = (some t, false) := by
        rw [hvalid, hat]
      have h1 := getUserOrders_bearer env userId filters t hvalid' ht
      have h2 := getOrderDetails_bearer env orderId t hvalid' ht
      exact ⟨hvalid', h1.1, h1.2, h2.1, h2.2⟩
  · exact getValidAccessToken_stale env
  · intro hf hr
    have hvalid : MercadoLibreService.getValidAccessToken env = (none, true) := by
      rw [getValidAccessToken_stale env hf, hr]
    constructor
    · unfold MercadoLibreService.getUserOrders
      dsimp only
      rw [hvalid]
      rw [if_pos (by simp [optTruthy])]
    · unfold MercadoLibreService.getOrderDetails
      dsimp only
      rw [hvalid]
      rw [if_pos (by simp [optTruthy])]
  · intro hc
    unfold MercadoLibreService.refreshAccessToken
    rw [if_pos (by rw [hc]; rfl)]

/-- C4 (witness): the theorem applied to a fresh-token environment (stored
token used, no refresh) and to the sample environment, whose token and
refresh credentials are absent (failure with no API call). -/
theorem ml_token_lifecycle_witness :
    MercadoLibreService.getValidAccessToken
      { sampleEnv with
        mlAccessToken := some "tokA"
        mlAccessTokenExpira := some "2099-01-01T00:00:00.000Z"
        parseDateMs := fun _ => some 4070908800000 } = (some "tokA", false) ∧
    MercadoLibreService.getUserOrders sampleEnv "u1" {} =
      ({ success := some false, error := some "No valid access token available" },
       { refreshCalled := true, apiCalled := false, bearer := none }) := by
  constructor
  · exact ((ml_token_lifecycle
      { sampleEnv with
        mlAccessToken := some "tokA"
        mlAccessTokenExpira := some "2099-01-01T00:00:00.000Z"
        parseDateMs := fun _ => some 4070908800000 } "u1" "o1" {}).1 (by decide)).1
  · exact (((ml_token_lifecycle sampleEnv "u1" "o1" {}).2.2.1 (by decide) (by decide))).1

/-- C5 (confirmed): when the matched menu option has responseType `ai` and
the AI gateway call does not succeed (its own catch also converts a thrown
fetch into such a failure envelope), `processSelection` returns a `static`
response whose message is the option's `fallbackResponse` when truthy and
the generic apology otherwise, and the interaction log of the request is
`menu_selection` followed by `static_response` — no `ai_response` entry. -/
theorem processSelection_ai_failure_fallback (env : Env) (sel : String)
    (sessionId : Option String) (opt : MenuOption)
    (hfind : (MenuService.getMenuConfig env.menuData).find?
        (fun option => decide (jvalString option.number = sel) && option.active) = some opt)
    (hai : opt.responseType = JVal.str "ai")
    (hfail : (AIService.generateResponse env (jsOr opt.aiProvider (.str "gemini"))
        { userQuery := opt.title, context := jsOr opt.aiContext (.str ""),
          maxTokens := jsOr opt.maxTokens (.num 500) }).success ≠ some true) :
    (MenuService.processSelection env (some sel) sessionId).1.rtype = some "static" ∧
    (jvalTruthy opt.fallbackResponse = true →
      (MenuService.processSelection env (some sel) sessionId).1.message =
        some opt.fallbackResponse) ∧
    (jvalTruthy opt.fallbackResponse = false →
      (MenuService.processSelection env (some sel) sessionId).1.message =
        some (.str "Lo siento, no puedo procesar tu consulta en este momento.")) ∧
    ((MenuService.processSelection env (some sel) sessionId).2.map (fun lg => lg.itype)) =
      ["menu_selection", "static_response"] := by
  have hps : MenuService.processSelection env (some sel) sessionId =
      (let r := MenuService.handleAIResponse env opt sessionId
       (r.1, LoggingService.logInteraction env.nowISO "menu_selection" sessionId
          { selection := some sel } :: r.2)) := by
    unfold MenuService.processSelection
    cases hmc : MenuService.getMenuConfig env.menuData with
    | nil => rw [hmc] at hfind; simp at hfind
    | cons hd tl =>
      rw [hmc] at hfind
      dsimp only
      rw [hfind]
      dsimp only
      rw [if_neg (by rw [hai]; decide), if_pos (by rw [hai])]
  have hfb : MenuService.handleAIResponse env opt sessionId =
      MenuService.handleStaticResponse env
        { opt with
          response := jsOr opt.fallbackResponse
            (.str "Lo siento, no puedo procesar tu consulta en este momento.") }
        sessionId := by
    unfold MenuService.handleAIResponse
    dsimp only
    rw [if_neg hfail]
  rw [hps, hfb]
  refine ⟨rfl, ?_, ?_, rfl⟩
  · intro ht
    show some (jsOr opt.fallbackResponse
      (.str "Lo siento, no puedo procesar tu consulta en este momento.")) = _
    rw [jsOr, if_pos ht]
  · intro ht
    show some (jsOr opt.fallbackResponse
      (.str "Lo siento, no puedo procesar tu consulta en este momento.")) = _
    rw [jsOr, if_neg (by rw [ht]; decide)]

/-- C5 (witness): the theorem applied to the sample menu's option 1 (an
`ai` option with fallback text) in an environment whose Gemini fetch
throws: the result is the static fallback and the logs carry no
`ai_response`. -/
theorem processSelection_ai_failure_fallback_witness :
    (MenuService.processSelection
        { sampleEnv with geminiHttp := fun _ _ => .error "network down" }
        (some "1") (some "s1")).1.rtype = some "static" ∧
    (MenuService.processSelection
        { sampleEnv with geminiHttp := fun _ _ => .error "network down" }
        (some "1") (some "s1")).1.message =
      some (.str "Consulta el estado de tu pedido en tu cuenta") ∧
    ((MenuService.processSelection
        { sampleEnv with geminiHttp := fun _ _ => .error "network down" }
        (some "1") (some "s1")).2.map (fun lg => lg.itype)) =
      ["menu_selection", "static_response"] := by
  have h := processSelection_ai_failure_fallback
    { sampleEnv with geminiHttp := fun _ _ => .error "network down" } "1" (some "s1")
    { number := .num 1, title := .str "Estado de mi pedido", responseType := .str "ai",
      response := .str "", aiProvider := .str "gemini",
      aiContext := .str "Ayuda con consultas sobre el estado de pedidos y seguimiento de envíos",
      escalationMessage := .str "", afterHoursMessage := .str "",
      fallbackResponse := .str "Consulta el estado de tu pedido en tu cuenta",
      returnToMenu := true, active := true, maxTokens := .num 300 }
    (by decide) rfl (by decide)
  exact ⟨h.1, by rw [h.2.1 (by decide)], h.2.2.2⟩

/-- C8 (confirmed): the analytics summary has all rates and the average
response time equal to 0 on the empty set; on a nonempty set the success
and escalation rates are `round(count / total * 100)` (as exact rational
rounding via `jsRound`); and the three-entry example set yields
`totalInteractions 3`, `successRate 33`, `escalationRate 33` and
`aiUsage [gemini: 1]`. -/
theorem getAnalytics_rates :
    ((LoggingService.getAnalytics []).successRate = 0 ∧
     (LoggingService.getAnalytics []).escalationRate = 0 ∧
     (LoggingService.getAnalytics []).averageResponseTime = 0) ∧
    (∀ logs : List AnalyticsRow, logs ≠ [] →
      (LoggingService.getAnalytics logs).successRate =
        jsRound (100 * (logs.countP (fun log => log.status = "success"))) logs.length ∧
      (LoggingService.getAnalytics logs).escalationRate =
        jsRound (100 * (logs.countP (fun log => log.itype = "escalation"))) logs.length) ∧
    ((LoggingService.getAnalytics sampleAnalyticsLogs).totalInteractions = 3 ∧
     (LoggingService.getAnalytics sampleAnalyticsLogs).successRate = 33 ∧
     (LoggingService.getAnalytics sampleAnalyticsLogs).escalationRate = 33 ∧
     (LoggingService.getAnalytics sampleAnalyticsLogs).aiUsage = [("gemini", 1)]) := by
  refine ⟨⟨rfl, rfl, rfl⟩, ?_, by decide, by decide, by decide, by decide⟩
  intro logs hne
  have hpos : 0 < logs.length := List.length_pos.mpr hne
  unfold LoggingService.getAnalytics
  dsimp only
  rw [if_pos hpos, if_pos hpos]
  exact ⟨rfl, rfl⟩

/-- C8 (witness): the nonempty-set formula of the theorem applied to the
example log set. -/
theorem getAnalytics_rates_witness :
    (LoggingService.getAnalytics sampleAnalyticsLogs).successRate =
      jsRound (100 * (sampleAnalyticsLogs.countP (fun log => log.status = "success")))
        sampleAnalyticsLogs.length :=
  (getAnalytics_rates.2.1 sampleAnalyticsLogs (by decide)).1

/-- C10 (counterexample): the message `precio ABC123` is classified as a
product inquiry and contains a token made of a 3-letter alphabetic prefix
followed by digits, yet `extractProductId` — whose regex demands the
literal prefix `MLA` — extracts nothing, so the handler performs no product
fetch for it. -/
theorem extractProductId_misses_generic_token :
    ChatService.containsProductKeywords (jsToLower "precio ABC123") = true ∧
    claimHasProductToken "precio ABC123" = true ∧
    ChatService.extractProductId "precio ABC123" = none ∧
    (ChatService.handleProductInquiry sampleEnv "precio ABC123").2 = none := by
  refine ⟨by decide, by decide, by decide, rfl⟩

theorem runLen_take_all (p : Char → Bool) :
    ∀ l : List Char, ((l.take (runLen p l)).all p) = true := by
  intro l
  induction l with
  | nil => rfl
  | cons c rest ih =>
    unfold runLen
    by_cases hc : p c
    · rw [if_pos hc]
      simpa [hc] using ih
    · rw [if_neg hc]
      rfl

theorem runLen_take_ne_nil (p : Char → Bool) (l : List Char) (h : 1 ≤ runLen p l) :
    l.take (runLen p l) ≠ [] := by
  cases l with
  | nil => simp [runLen] at h
  | cons c rest =>
    unfold runLen at h ⊢
    by_cases hc : p c
    · rw [if_pos hc]; simp
    · rw [if_neg hc] at h; exact absurd h (by simp)

theorem take_isPrefixOf : ∀ (l : List Char) (n : Nat), ((l.take n).isPrefixOf l) = true := by
  intro l
  induction l with
  | nil => intro n; simp [List.isPrefixOf]
  | cons c rest ih =>
    intro n
    cases n with
    | zero => rfl
    | succ m => simpa [List.isPrefixOf] using ih m

theorem productIdScan_sound : ∀ (l : List Char) (id : String),
    ChatService.productIdScan l = some id →
    ((id.toList.take 3).map charLower = ['m', 'l', 'a'] ∧
     id.toList.drop 3 ≠ [] ∧ ((id.toList.drop 3).all isDigitCh) = true ∧
     containsSeq id.toList l = true) := by
  intro l
  induction l with
  | nil => intro id h; simp [ChatService.productIdScan] at h
  | cons a rest ih =>
    intro id h
    cases rest with
    | nil => simp [ChatService.productIdScan] at h
    | cons b rest2 =>
      cases rest2 with
      | nil => simp [ChatService.productIdScan] at h
      | cons d tl =>
        unfold ChatService.productIdScan at h
        split at h
        · next hcond =>
          simp only [Bool.and_eq_true, decide_eq_true_eq] at hcond
          obtain ⟨⟨⟨ha, hb⟩, hd⟩, hrun⟩ := hcond
          have hidl : id.toList = a :: b :: d :: tl.take (runLen isDigitCh tl) := by
            have := h
            injection this with h2
            rw [← h2]
            rfl
          refine ⟨?_, ?_, ?_, ?_⟩
          · rw [hidl]; simp [ha, hb, hd]
          · rw [hidl]
            exact fun hc => runLen_take_ne_nil isDigitCh tl hrun (by simpa using hc)
          · rw [hidl]
            simpa using runLen_take_all isDigitCh tl
          · rw [hidl]
            unfold containsSeq
            rw [Bool.or_eq_true]
            left
            simpa [List.isPrefixOf] using take_isPrefixOf tl (runLen isDigitCh tl)
        · next =>
          have hr := ih id h
          exact ⟨hr.1, hr.2.1, hr.2.2.1, by
            unfold containsSeq
            rw [Bool.or_eq_true]
            right
            exact hr.2.2.2⟩

theorem scanCond_eq_mlaMatchAt (a b d : Char) (tl : List Char) :
    (charLower a = 'm' && charLower b = 'l' && charLower d = 'a' &&
      decide (1 ≤ runLen isDigitCh tl)) = mlaMatchAt (a :: b :: d :: tl) := by
  cases tl with
  | nil => simp [mlaMatchAt, runLen]
  | cons e tl2 =>
    have hrun : runLen isDigitCh (e :: tl2) =
        if isDigitCh e = true then runLen isDigitCh tl2 + 1 else 0 := rfl
    have hmla : mlaMatchAt (a :: b :: d :: e :: tl2) =
        (charLower a = 'm' && charLower b = 'l' && charLower d = 'a' && isDigitCh e) := rfl
    rw [hmla, hrun]
    by_cases he : isDigitCh e = true
    · rw [if_pos he, he]
      have h1 : decide (1 ≤ runLen isDigitCh tl2 + 1) = true :=
        decide_eq_true (Nat.succ_le_succ (Nat.zero_le _))
      rw [h1]
    · rw [if_neg he]
      rw [Bool.not_eq_true] at he
      rw [show (decide (1 ≤ 0) : Bool) = false from rfl, he]

theorem runLen_drop_head (p : Char → Bool) : ∀ (tl : List Char) (c : Char) (rest2 : List Char),
    tl.drop (runLen p tl) = c :: rest2 → p c = false := by
  intro tl
  induction tl with
  | nil =>
    intro c rest2 h
    simp at h
  | cons e tl2 ih =>
    intro c rest2 h
    by_cases he : p e = true
    · unfold runLen at h
      rw [if_pos he, List.drop_succ_cons] at h
      exact ih c rest2 h
    · unfold runLen at h
      rw [if_neg he, List.drop_zero] at h
      injection h with h1 h2
      rw [Bool.not_eq_true] at he
      rw [← h1]
      exact he

theorem productIdScan_cons_none (a : Char) (rest : List Char)
    (h : ChatService.productIdScan (a :: rest) = none) :
    ChatService.productIdScan rest = none := by
  cases rest with
  | nil => rfl
  | cons b rest2 =>
    cases rest2 with
    | nil => rfl
    | cons d tl =>
      unfold ChatService.productIdScan at h
      split at h
      · simp at h
      · exact h

theorem productIdScan_complete : ∀ (l : List Char) (i : Nat),
    mlaMatchAt (l.drop i) = true → ChatService.productIdScan l ≠ none := by
  intro l
  induction l with
  | nil =>
    intro i hm
    rw [List.drop_nil] at hm
    simp [mlaMatchAt] at hm
  | cons a rest ih =>
    intro i hm
    cases i with
    | zero =>
      rw [List.drop_zero] at hm
      cases rest with
      | nil => simp [mlaMatchAt] at hm
      | cons b rest2 =>
        cases rest2 with
        | nil => simp [mlaMatchAt] at hm
        | cons d rest3 =>
          cases rest3 with
          | nil => simp [mlaMatchAt] at hm
          | cons e tl2 =>
            unfold ChatService.productIdScan
            rw [if_pos (show _ = true by rw [scanCond_eq_mlaMatchAt]; exact hm)]
            simp
    | succ j =>
      rw [List.drop_succ_cons] at hm
      intro hnone
      exact ih j hm (productIdScan_cons_none a rest hnone)

theorem productIdScan_leftmost : ∀ (l : List Char) (id : String),
    ChatService.productIdScan l = some id →
    ∃ pre rest, l = pre ++ id.toList ++ rest ∧
      mlaMatchAt (id.toList ++ rest) = true ∧
      (∀ i, i < pre.length → mlaMatchAt (l.drop i) = false) ∧
      (∀ c rest2, rest = c :: rest2 → isDigitCh c = false) := by
  intro l
  induction l with
  | nil => intro id h; simp [ChatService.productIdScan] at h
  | cons a rest ih =>
    intro id h
    cases rest with
    | nil => simp [ChatService.productIdScan] at h
    | cons b rest2 =>
      cases rest2 with
      | nil => simp [ChatService.productIdScan] at h
      | cons d tl =>
        unfold ChatService.productIdScan at h
        split at h
        · next hcond =>
          have hidl : id.toList = a :: b :: d :: tl.take (runLen isDigitCh tl) := by
            have := h
            injection this with h2
            rw [← h2]
            rfl
          have hjoin : id.toList ++ tl.drop (runLen isDigitCh tl) = a :: b :: d :: tl := by
            rw [hidl]
            simp [List.take_append_drop]
          refine ⟨[], tl.drop (runLen isDigitCh tl), ?_, ?_, ?_, ?_⟩
          · rw [List.nil_append, hjoin]
          · rw [hjoin, ← scanCond_eq_mlaMatchAt]
            exact hcond
          · intro i hi
            exact absurd hi (Nat.not_lt_zero i)
          · intro c rest2 hdrop
            exact runLen_drop_head isDigitCh tl c rest2 hdrop
        · next hcond =>
          obtain ⟨pre, rest', hdec, hmla, hleft, hgreedy⟩ := ih id h
          refine ⟨a :: pre, rest', ?_, hmla, ?_, hgreedy⟩
          · simp only [List.cons_append]
            rw [← hdec]
          · intro i hi
            cases i with
            | zero =>
              rw [List.drop_zero, ← scanCond_eq_mlaMatchAt]
              rw [Bool.not_eq_true] at hcond
              exact hcond
            | succ j =>
              rw [List.drop_succ_cons]
              exact hleft j (Nat.lt_of_succ_lt_succ hi)

theorem getProductInfo_success_shape (env : Env) (itemId : String)
    (h : (MercadoLibreService.getProductInfo env itemId).success = some true) :
    ∃ d, MercadoLibreService.getProductInfo env itemId =
      { success := some true, timestamp := some env.nowISO, dataML := some d } := by
  unfold MercadoLibreService.getProductInfo at h ⊢
  cases he : env.itemHttp itemId with
  | error e => rw [he] at h; simp at h
  | ok body =>
    rw [he] at h
    dsimp only at h ⊢
    by_cases hc : body.code = 200
    · rw [if_pos hc]
      exact ⟨body.data, rfl⟩
    · rw [if_neg hc] at h
      simp at h

/-- C10 (amended): `extractProductId` finds no id exactly when no position
of the message starts a match of `/MLA\d+/i` (the letters `MLA`
case-insensitively followed by a digit, the declarative `mlaMatchAt`); an
extracted id is the match at the leftmost such position — the message
decomposes as `pre ++ id ++ rest` with no match starting inside `pre` and
the greedy digit run maximal (`rest` never starts with a digit) — and the
handler fetches exactly that id, returning the `product_info` envelope on
fetch success and the AI gateway's generic product answer on fetch
failure; when no id is extracted, no fetch is attempted and the generic
answer is returned. -/
theorem handleProductInquiry_mla_extraction (env : Env) (msg : String) :
    (ChatService.extractProductId msg = none ↔
      ∀ i, mlaMatchAt (msg.toList.drop i) = false) ∧
    (∀ id, ChatService.extractProductId msg = some id →
      ((ChatService.handleProductInquiry env msg).2 = some id ∧
       (∃ pre rest, msg.toList = pre ++ id.toList ++ rest ∧
         mlaMatchAt (id.toList ++ rest) = true ∧
         (∀ i, i < pre.length → mlaMatchAt (msg.toList.drop i) = false) ∧
         (∀ c rest2, rest = c :: rest2 → isDigitCh c = false)) ∧
       ((id.toList.take 3).map charLower = ['m', 'l', 'a'] ∧
        id.toList.drop 3 ≠ [] ∧ ((id.toList.drop 3).all isDigitCh) = true ∧
        containsSeq id.toList msg.toList = true) ∧
       ((MercadoLibreService.getProductInfo env id).success = some true →
         (ChatService.handleProductInquiry env msg).1.rtype = some "product_info") ∧
       ((MercadoLibreService.getProductInfo env id).success ≠ some true →
         (ChatService.handleProductInquiry env msg).1 =
           AIService.generateResponse env (.str "gemini")
             (ChatService.productInquiryAIContext msg)))) ∧
    (ChatService.extractProductId msg = none →
      (ChatService.handleProductInquiry env msg).2 = none ∧
      (ChatService.handleProductInquiry env msg).1 =
        AIService.generateResponse env (.str "gemini")
          (ChatService.productInquiryAIContext msg)) := by
  refine ⟨⟨?_, ?_⟩, ?_, ?_⟩
  · intro h i
    cases hmm : mlaMatchAt (msg.toList.drop i) with
    | false => rfl
    | true => exact absurd h (productIdScan_complete msg.toList i hmm)
  · intro hall
    cases hscan : ChatService.extractProductId msg with
    | none => rfl
    | some id =>
      obtain ⟨pre, rest, hdec, hmla, -, -⟩ := productIdScan_leftmost msg.toList id hscan
      have hpos : mlaMatchAt (msg.toList.drop pre.length) = true := by
        rw [hdec, List.append_assoc, List.drop_left]
        exact hmla
      rw [hall pre.length] at hpos
      exact Bool.noConfusion hpos
  · intro id hid
    have hsound := productIdScan_sound msg.toList id hid
    refine ⟨?_, productIdScan_leftmost msg.toList id hid, hsound, ?_, ?_⟩
    · unfold ChatService.handleProductInquiry
      dsimp only
      rw [hid]
      dsimp only
      split <;> rfl
    · intro hsucc
      obtain ⟨d, hshape⟩ := getProductInfo_success_shape env id hsucc
      unfold ChatService.handleProductInquiry
      dsimp only
      rw [hid]
      dsimp only
      rw [hshape]
    · intro hsucc
      unfold ChatService.handleProductInquiry
      dsimp only
      rw [hid]
      dsimp only
      split
      · next heq1 heq2 => exact absurd heq1 hsucc
      · rfl
  · intro hid
    unfold ChatService.handleProductInquiry
    dsimp only
    rw [hid]
    exact ⟨rfl, rfl⟩

/-- C10 (witness): the amended theorem applied to the message
`quiero MLA123` against the environment with a succeeding product
endpoint. -/
theorem handleProductInquiry_mla_extraction_witness :
    (ChatService.handleProductInquiry sampleProductEnv "quiero MLA123").2 = some "MLA123" ∧
    (ChatService.handleProductInquiry sampleProductEnv "quiero MLA123").1.rtype =
      some "product_info" := by
  have h := (handleProductInquiry_mla_extraction sampleProductEnv "quiero MLA123").2.1
    "MLA123" (by decide)
  exact ⟨h.1, h.2.2.2.1 (by decide)⟩

end YamiDash
